import Mathlib

/-!
Verification development for the bevy_navigator waypoint-navigation core.

The definitions below are a shallow embedding of the Rust sources
(src/navigation.rs and src/traveler.rs):
  - f32 scalars and 3D vectors are modelled over the rationals, except for
    the traveler movement step, whose normalize operation requires a square
    root and is therefore modelled over the reals;
  - u32 counters are modelled as Nat; where Rust release-mode wrapping can
    occur the wrap is written explicitly as arithmetic modulo 4294967296,
    and the saturating float-to-int cast is modelled by u32cast;
  - HashMap and HashSet are modelled as association lists and membership
    lists; lookup finds the first matching key, modification rewrites the
    first matching entry, matching HashMap semantics (unique keys);
  - the A* main loop is a while loop in Rust; it is embedded with an
    explicit fuel argument.  Every queue push strictly decreases the
    pushed id's best-known g-score, a u32, so the Rust loop performs at
    most (number of points) * 2^32 + 1 iterations; the fuel
    (number of points + 1) * 2^32 is an upper bound for that.
-/

/-- Three-dimensional vector over the rationals, standing in for bevy_math::Vec3. -/
structure Vec3 where
  x : ℚ
  y : ℚ
  z : ℚ
deriving DecidableEq, Repr

/-- Squared euclidean distance between two points, as Vec3::distance_squared. -/
def Vec3.distance_squared (a b : Vec3) : ℚ :=
  (a.x - b.x) ^ 2 + (a.y - b.y) ^ 2 + (a.z - b.z) ^ 2

/-- Rust saturating cast from a (real-valued) scalar to u32, written `as u32`:
negative values clamp to 0, values of 2^32 or more clamp to 4294967295,
otherwise the value is truncated toward zero. -/
def u32cast (q : ℚ) : ℕ :=
  if q < 0 then 0 else min (Int.toNat ⌊q⌋) 4294967295

/-- Waypoint record, as struct NavPoint in src/navigation.rs. -/
structure NavPoint where
  id : ℕ
  location : Vec3
  speed_modifier : ℚ
  connections : List ℕ
  max_occupancy : ℕ
  current_occupancy : ℕ
deriving DecidableEq, Repr

/-- NavPoint::new: empty connection set and zero occupancy. -/
def NavPoint.new (id : ℕ) (location : Vec3) (speed_modifier : ℚ) (max_occupancy : ℕ) : NavPoint :=
  { id := id, location := location, speed_modifier := speed_modifier,
    connections := [], max_occupancy := max_occupancy, current_occupancy := 0 }

/-- NavPoint::can_occupy: current_occupancy < max_occupancy. -/
def NavPoint.can_occupy (p : NavPoint) : Bool :=
  p.current_occupancy < p.max_occupancy

/-- NavPoint::occupy: increment and report true when there is headroom,
otherwise report false and leave the point unchanged. -/
def NavPoint.occupy (p : NavPoint) : Bool × NavPoint :=
  if p.can_occupy then (true, { p with current_occupancy := p.current_occupancy + 1 })
  else (false, p)

/-- NavPoint::unoccupy computes (self.current_occupancy - 1).max(0) on a u32.
The subtraction is u32 arithmetic: at occupancy 0 it underflows (a panic in
debug builds; in release builds it wraps to 4294967295, written here as the
explicit modulus), and the trailing .max(0) is the identity on an unsigned
value.  The embedding keeps the release-mode wrap. -/
def NavPoint.unoccupy (p : NavPoint) : NavPoint :=
  { p with current_occupancy := Nat.max ((p.current_occupancy + 4294967295) % 4294967296) 0 }

/-- Lookup of the first entry with the given key in an association list,
as HashMap::get. -/
def alookup {α : Type} : List (ℕ × α) → ℕ → Option α
  | [], _ => none
  | q :: rest, k => if q.1 = k then some q.2 else alookup rest k

/-- Rewrite the value of the first entry with the given key, leaving the list
unchanged when the key is absent, as HashMap::entry(k).and_modify(f). -/
def amodify {α : Type} : List (ℕ × α) → ℕ → (α → α) → List (ℕ × α)
  | [], _, _ => []
  | q :: rest, k, f => if q.1 = k then (q.1, f q.2) :: rest else q :: amodify rest k f

/-- Insert or replace the entry with the given key, as HashMap::insert. -/
def ainsert {α : Type} (l : List (ℕ × α)) (k : ℕ) (v : α) : List (ℕ × α) :=
  (k, v) :: l.filter (fun q => q.1 ≠ k)

/-- Add an element to a membership list when not already present,
as HashSet::insert. -/
def insertNat (l : List ℕ) (x : ℕ) : List ℕ :=
  if x ∈ l then l else x :: l

/-- Waypoint graph, as struct NavGraph in src/navigation.rs. -/
structure NavGraph where
  points : List (ℕ × NavPoint)
  highest_id : ℕ
deriving DecidableEq, Repr

/-- NavGraph::new / Default: empty map, highest id zero. -/
def NavGraph.new : NavGraph :=
  { points := [], highest_id := 0 }

/-- Lookup of a waypoint by id: self.points.get(&id). -/
def NavGraph.find? (g : NavGraph) (id : ℕ) : Option NavPoint :=
  alookup g.points id

/-- Modelled from the spec: the movement driver in src/traveler.rs calls an
accessor get_nav_point whose definition is not among the provided sources;
per the data model section the WaypointGraph is a mapping from id to
Waypoint, so the accessor is the lookup of that mapping. -/
def NavGraph.get_nav_point (g : NavGraph) (id : ℕ) : Option NavPoint :=
  g.find? id

/-- NavGraph::has_node: self.points.contains_key(&id). -/
def NavGraph.has_node (g : NavGraph) (id : ℕ) : Bool :=
  (g.find? id).isSome

/-- NavGraph::add_nav_point: for every id in the incoming point's connection
set, insert the reciprocal back-edge into that point when it exists; raise
highest_id when exceeded; then insert (or replace) the point itself. -/
def NavGraph.add_nav_point (g : NavGraph) (pt : NavPoint) : NavGraph :=
  let pts1 := pt.connections.foldl
    (fun acc c => amodify acc c
      (fun b => { b with connections := insertNat b.connections pt.id })) g.points
  { points := ainsert pts1 pt.id pt,
    highest_id := if g.highest_id < pt.id then pt.id else g.highest_id }

/-- NavGraph::connect_points: a no-op when either id is absent, otherwise
insert each id into the other's connection set. -/
def NavGraph.connect_points (g : NavGraph) (a b : ℕ) : NavGraph :=
  if g.has_node a && g.has_node b then
    let pts1 := amodify g.points a
      (fun p => { p with connections := insertNat p.connections b })
    let pts2 := amodify pts1 b
      (fun p => { p with connections := insertNat p.connections a })
    { g with points := pts2 }
  else g

/-- NavGraph::remove_point: remove the entry, then delete the back-reference
from every former neighbor. -/
def NavGraph.remove_point (g : NavGraph) (id : ℕ) : NavGraph :=
  match g.find? id with
  | none => g
  | some pt =>
    let pts1 := g.points.filter (fun q => q.1 ≠ id)
    let pts2 := pt.connections.foldl
      (fun acc c => amodify acc c
        (fun b => { b with connections := b.connections.filter (fun x => x ≠ id) })) pts1
    { g with points := pts2 }

/-- NavGraph::can_occupy: headroom query, false for an absent id. -/
def NavGraph.can_occupy (g : NavGraph) (id : ℕ) : Bool :=
  match g.find? id with
  | some p => p.can_occupy
  | none => false

/-- NavGraph::occupy: entry(id).and_modify(occupy); reports false and leaves
the map untouched when the id is absent. -/
def NavGraph.occupy (g : NavGraph) (id : ℕ) : Bool × NavGraph :=
  match g.find? id with
  | none => (false, g)
  | some p =>
    ((p.occupy).1, { g with points := amodify g.points id (fun q => (q.occupy).2) })

/-- NavGraph::unoccupy: entry(id).and_modify(unoccupy); a no-op on an absent id. -/
def NavGraph.unoccupy (g : NavGraph) (id : ℕ) : NavGraph :=
  { g with points := amodify g.points id NavPoint.unoccupy }

/-- NavGraph::h_func: squared distance between the two locations divided by
the destination point's speed modifier, times 100, cast to u32; u32::MAX
when either id is absent. -/
def NavGraph.h_func (g : NavGraph) (a b : ℕ) : ℕ :=
  match g.find? a, g.find? b with
  | some apt, some bpt =>
    u32cast (Vec3.distance_squared apt.location bpt.location / bpt.speed_modifier * 100)
  | _, _ => 4294967295

/-- Frontier element, as struct PathNode: an id and its f-score; the heap
orders by f alone. -/
structure PathNode where
  id : ℕ
  f : ℕ
deriving DecidableEq, Repr

/-- Pop a minimal-f element from the frontier, as BinaryHeap<Reverse<PathNode>>::pop.
Ties are broken toward the earliest inserted element; the Rust heap leaves the
tie-break unspecified. -/
def popMin : List PathNode → Option (PathNode × List PathNode)
  | [] => none
  | n :: rest =>
    match popMin rest with
    | none => some (n, [])
    | some (m, rest2) => if n.f ≤ m.f then some (n, rest) else some (m, n :: rest2)

/-- Working state of the A* search in NavGraph::find_path. -/
structure AStarState where
  search_ids : List ℕ
  open_set : List PathNode
  came_from : List (ℕ × ℕ)
  g_score : List (ℕ × ℕ)
  f_score : List (ℕ × ℕ)
deriving DecidableEq, Repr

/-- Value of an entry of a score map, with the given default when absent. -/
def alookupD (l : List (ℕ × ℕ)) (k : ℕ) (d : ℕ) : ℕ :=
  match alookup l k with
  | some v => v
  | none => d

/-- Processing of one neighbor id inside the expansion loop of find_path:
skip a neighbor without occupancy headroom; otherwise compute the tentative
g-score through the current node (u32 addition, hence the modulus) and, when
it improves on the recorded g-score (u32::MAX when none is recorded), record
predecessor, g-score and f-score, and push the neighbor onto the frontier
unless it is already pending.  A connection id absent from the map would make
the Rust indexing panic; such an id leaves the state unchanged here. -/
def stepNeighbor (g : NavGraph) (b cur : ℕ) (st : AStarState) (nid : ℕ) : AStarState :=
  match g.find? nid with
  | none => st
  | some neighbor =>
    if neighbor.can_occupy then
      let tentative := (alookupD st.g_score cur 0 + g.h_func cur nid) % 4294967296
      if tentative < alookupD st.g_score nid 4294967295 then
        let cur_f := (tentative + g.h_func nid b) % 4294967296
        let st1 : AStarState :=
          { st with came_from := ainsert st.came_from nid cur,
                    g_score := ainsert st.g_score nid tentative,
                    f_score := ainsert st.f_score nid cur_f }
        if nid ∈ st.search_ids then st1
        else { st1 with search_ids := nid :: st1.search_ids,
                        open_set := st1.open_set ++ [{ id := nid, f := cur_f }] }
      else st
    else st

/-- Expansion of every connection of the current node, in the set's
iteration order. -/
def expand (g : NavGraph) (b cur : ℕ) (st : AStarState) (conns : List ℕ) : AStarState :=
  conns.foldl (stepNeighbor g b cur) st

/-- Path reconstruction at the goal: walk the predecessor map back from the
goal until the start, collecting ids front-most first.  The Rust loop indexes
came_from and would panic on a missing key and loop forever on a cycle; the
walk is embedded with fuel and yields none in those cases. -/
def reconstruct (cf : List (ℕ × ℕ)) (a : ℕ) : ℕ → ℕ → Option (List ℕ)
  | 0, _ => none
  | fuel + 1, cur =>
    if cur = a then some []
    else
      match alookup cf cur with
      | none => none
      | some prev =>
        match reconstruct cf a fuel prev with
        | none => none
        | some l => some (l ++ [cur])

/-- Main loop of NavGraph::find_path: pop a minimal-f node; reconstruct and
return when it is the goal; otherwise drop it from the pending set, skip it
when it has been removed from the graph, and expand its connections. -/
def astarLoop (g : NavGraph) (a b : ℕ) : ℕ → AStarState → Option (List ℕ)
  | 0, _ => none
  | fuel + 1, st =>
    match popMin st.open_set with
    | none => none
    | some (current, rest) =>
      if current.id = b then
        reconstruct st.came_from a (st.came_from.length + 1) current.id
      else
        let st1 : AStarState :=
          { st with open_set := rest,
                    search_ids := st.search_ids.filter (fun x => x ≠ current.id) }
        match g.find? current.id with
        | none => astarLoop g a b fuel st1
        | some cnode => astarLoop g a b fuel (expand g b current.id st1 cnode.connections)

/-- Fuel bound for the embedded search loop; see the header comment. -/
def astarFuel (g : NavGraph) : ℕ :=
  (g.points.length + 1) * 4294967296

/-- NavGraph::find_path: none when either endpoint is absent; otherwise run
the A* loop from the start node seeded with g-score 0 and f-score h(a, b).
The Rust capacity hint for the working collections is pure pre-sizing and is
not modelled. -/
def NavGraph.find_path (g : NavGraph) (a b : ℕ) : Option (List ℕ) :=
  match g.find? a, g.find? b with
  | some _, some _ =>
    let start_h := g.h_func a b
    astarLoop g a b (astarFuel g)
      { search_ids := [a],
        open_set := [{ id := a, f := start_h }],
        came_from := [],
        g_score := [(a, 0)],
        f_score := [(a, start_h)] }
  | _, _ => none

/-- Spec-side predicate (section 3 of the spec): connectivity is symmetric,
id b is in the connections of a iff a is in the connections of b, for all
waypoints a and b present in the graph. -/
def symmConn (g : NavGraph) : Prop :=
  ∀ a b pa pb, g.find? a = some pa → g.find? b = some pb →
    (b ∈ pa.connections ↔ a ∈ pb.connections)

/-- Spec-side predicate: every connection id of every waypoint names a
waypoint present in the graph (no dangling connection references). -/
def closedConn (g : NavGraph) : Prop :=
  ∀ a pa, g.find? a = some pa → ∀ x ∈ pa.connections, (g.find? x).isSome = true

/-- Executable form of closedConn, used in concrete hypotheses. -/
def closedCheck (g : NavGraph) : Bool :=
  g.points.all (fun q => q.2.connections.all (fun x => g.has_node x))

/-- One graph-mutating operation of the public mutation API. -/
inductive GraphOp where
  | addPoint (pt : NavPoint)
  | connect (a b : ℕ)
  | removeAt (id : ℕ)
deriving DecidableEq, Repr

/-- Application of one mutation to the graph. -/
def applyOp (g : NavGraph) : GraphOp → NavGraph
  | GraphOp.addPoint pt => g.add_nav_point pt
  | GraphOp.connect a b => g.connect_points a b
  | GraphOp.removeAt id => g.remove_point id

/-- Application of a sequence of mutations, first element first. -/
def applyOps (g : NavGraph) (ops : List GraphOp) : NavGraph :=
  ops.foldl applyOp g

/-- Side condition under which one mutation preserves the symmetry
invariant: an added waypoint must carry a fresh id and only declare
connections to waypoints already present; connect and remove are
unrestricted. -/
def goodOp (g : NavGraph) : GraphOp → Prop
  | GraphOp.addPoint pt =>
    g.find? pt.id = none ∧ ∀ x ∈ pt.connections, (g.find? x).isSome = true
  | GraphOp.connect _ _ => True
  | GraphOp.removeAt _ => True

/-- The side condition holding along a whole sequence of mutations. -/
def goodSeq : NavGraph → List GraphOp → Prop
  | _, [] => True
  | g, op :: ops => goodOp g op ∧ goodSeq (applyOp g op) ops

/-- Spec-side cost formula (section 4.2 of the spec): squared distance of the
two locations divided by the destination speed modifier, times 100, truncated
to an integer.  Stated directly on the two waypoint records, to be compared
with NavGraph.h_func. -/
def h_specFormula (xpt ypt : NavPoint) : ℕ :=
  u32cast (Vec3.distance_squared xpt.location ypt.location / ypt.speed_modifier * 100)

/-- Connection shape of position i in a straight chain of n waypoints whose
ids are c 0, ..., c (n-1): the endpoints hold exactly their single neighbor,
an interior node holds exactly its two neighbors in either iteration order. -/
def chainConns (c : ℕ → ℕ) (n i : ℕ) (pt : NavPoint) : Prop :=
  if i = 0 then pt.connections = [c 1]
  else if i = n - 1 then pt.connections = [c (n - 2)]
  else pt.connections = [c (i - 1), c (i + 1)] ∨ pt.connections = [c (i + 1), c (i - 1)]

/-- Accumulated forward cost along the chain: sum of the h_func values of the
consecutive hops, as an unbounded natural number. -/
def chainCost (g : NavGraph) (c : ℕ → ℕ) : ℕ → ℕ
  | 0 => 0
  | i + 1 => chainCost g c i + g.h_func (c i) (c (i + 1))

/-- Loop invariant for the A* trace on a straight chain: after i iterations
the frontier and pending set hold exactly the chain node at position i, the
g-score map records the accumulated forward costs of positions up to i and
nothing else, and the predecessor map records exactly the chain edges up to
position i. -/
structure ChainInv (g : NavGraph) (c : ℕ → ℕ) (i : ℕ) (st : AStarState) : Prop where
  open_eq : ∃ fv, st.open_set = [{ id := c i, f := fv }]
  sids : st.search_ids = [c i]
  gs_mem : ∀ j, j ≤ i → alookup st.g_score (c j) = some (chainCost g c j)
  gs_dom : ∀ x, (∀ j, j ≤ i → x ≠ c j) → alookup st.g_score x = none
  cf_mem : ∀ j, 1 ≤ j → j ≤ i → alookup st.came_from (c j) = some (c (j - 1))
  cf_dom : ∀ x, (∀ j, 1 ≤ j → j ≤ i → x ≠ c j) → alookup st.came_from x = none
  cf_len : st.came_from.length = i

/-- Traveler policy flag, as enum BlockedBehavior in src/traveler.rs. -/
inductive BlockedBehavior where
  | wait
  | recompute
deriving DecidableEq, Repr

/-- Traveler policy flag, as enum DestinationBehavior. -/
inductive DestinationBehavior where
  | exactly
  | withinRadius (r : ℚ)
deriving DecidableEq, Repr

/-- Traveler policy flag, as enum PathBehavior. -/
inductive PathBehavior where
  | precompute
  | progressiveRecompute
deriving DecidableEq, Repr

/-- Traveler record, as struct AutoTraveler. -/
structure AutoTraveler where
  origin : ℕ
  destination : ℕ
  path : Option (List ℕ)
  current_index : ℕ
  speed : ℚ
  blocked_behavior : BlockedBehavior
  destination_behavior : DestinationBehavior
  path_behavior : PathBehavior
deriving DecidableEq, Repr

/-- Per-agent transient state, as struct TravelerPosition. -/
structure TravelerPosition where
  current_nav_point : ℕ
  next_nav_point : Option ℕ
deriving DecidableEq, Repr

/-- Three-dimensional vector over the reals, for the movement step of the
driver, whose normalize requires a square root. -/
structure Vec3R where
  x : ℝ
  y : ℝ
  z : ℝ

/-- Componentwise vector sum. -/
def Vec3R.add (a b : Vec3R) : Vec3R :=
  { x := a.x + b.x, y := a.y + b.y, z := a.z + b.z }

/-- Componentwise vector difference. -/
def Vec3R.sub (a b : Vec3R) : Vec3R :=
  { x := a.x - b.x, y := a.y - b.y, z := a.z - b.z }

/-- Scalar multiple of a vector. -/
def Vec3R.smul (k : ℝ) (v : Vec3R) : Vec3R :=
  { x := k * v.x, y := k * v.y, z := k * v.z }

/-- Squared length, as Vec3::length_squared. -/
def Vec3R.length_squared (v : Vec3R) : ℝ :=
  v.x ^ 2 + v.y ^ 2 + v.z ^ 2

/-- Squared distance, as Vec3::distance_squared. -/
def Vec3R.distance_squared (a b : Vec3R) : ℝ :=
  (Vec3R.sub a b).length_squared

/-- Unit vector in the direction of v, as Vec3::normalize. -/
noncomputable def Vec3R.normalize (v : Vec3R) : Vec3R :=
  Vec3R.smul (1 / Real.sqrt v.length_squared) v

/-- Embedding of a rational vector into the real one. -/
def Vec3.toR (v : Vec3) : Vec3R :=
  { x := (v.x : ℝ), y := (v.y : ℝ), z := (v.z : ℝ) }

/-- Agent transform, as bevy Transform restricted to the translation the
driver reads and writes. -/
structure Transform where
  translation : Vec3R

/-- Result of one per-tick update of one traveler in move_travelers: whether
the AutoTraveler component was removed (the traveler retired), plus the new
transform, traveler, position and graph. -/
structure MoveResult where
  retired : Bool
  transform : Transform
  traveler : AutoTraveler
  position : TravelerPosition
  graph : NavGraph

/-- Displacement of one tick of the movement phase: the normalized direction
from the departed waypoint to the reserved one, scaled by the traveler speed,
the departed waypoint's speed modifier and the tick duration. -/
noncomputable def tickMovement (fromPt toPt : NavPoint) (speed dt : ℚ) : Vec3R :=
  Vec3R.smul ((speed : ℝ) * (fromPt.speed_modifier : ℝ) * (dt : ℝ))
    (Vec3R.normalize (Vec3R.sub toPt.location.toR fromPt.location.toR))

/-- Arrival test of the movement phase: the squared displacement reaches the
squared remaining distance from the agent position to the reserved waypoint,
or that squared remaining distance is at most 0.001 squared. -/
def snapCond (movement : Vec3R) (tr : Transform) (toPt : NavPoint) : Prop :=
  movement.length_squared ≥ Vec3R.distance_squared tr.translation toPt.location.toR ∨
    Vec3R.distance_squared tr.translation toPt.location.toR ≤ ((1 : ℝ) / 1000) ^ 2

noncomputable instance (movement : Vec3R) (tr : Transform) (toPt : NavPoint) :
    Decidable (snapCond movement tr toPt) := by
  unfold snapCond
  infer_instance

/-- Movement phase of move_travelers (src/traveler.rs lines 169-196), entered
with a reservation held: read both waypoints, compute the tick displacement;
when the arrival test passes, snap onto the reserved waypoint, release the
departed one, commit the reserved one as current, clear the reservation and
advance the index; otherwise accumulate the displacement into the position.
When either waypoint lookup fails the tick changes nothing. -/
noncomputable def movePhase (g : NavGraph) (dt : ℚ) (tr : Transform) (t : AutoTraveler)
    (tp : TravelerPosition) (path : List ℕ) : MoveResult :=
  match tp.next_nav_point with
  | none => { retired := false, transform := tr, traveler := t, position := tp, graph := g }
  | some nxt =>
    match g.get_nav_point tp.current_nav_point, g.get_nav_point nxt with
    | some fromPt, some toPt =>
      if snapCond (tickMovement fromPt toPt t.speed dt) tr toPt then
        { retired := false,
          transform := { translation := toPt.location.toR },
          traveler := { t with current_index := t.current_index + 1 },
          position := { current_nav_point := path.getD (t.current_index + 1) 0,
                        next_nav_point := none },
          graph := g.unoccupy tp.current_nav_point }
      else
        let tr2 : Transform :=
          { translation := Vec3R.add tr.translation (tickMovement fromPt toPt t.speed dt) }
        { retired := false, transform := tr2, traveler := t, position := tp, graph := g }
    | _, _ => { retired := false, transform := tr, traveler := t, position := tp, graph := g }

/-- One per-tick update of one traveler, as the body of move_travelers: no
path means no action; an exhausted path (current_index + 1 at or past the
end) retires the traveler; without a reservation, attempt to occupy the
waypoint at path index current_index + 1 and stop for this tick when that
fails; with a reservation, run the movement phase.  Indexing path uses a
default that the bounds check above makes unreachable. -/
noncomputable def move_traveler (g : NavGraph) (dt : ℚ) (tr : Transform) (t : AutoTraveler)
    (tp : TravelerPosition) : MoveResult :=
  match t.path with
  | none => { retired := false, transform := tr, traveler := t, position := tp, graph := g }
  | some path =>
    if path.length ≤ t.current_index + 1 then
      { retired := true, transform := tr, traveler := t, position := tp, graph := g }
    else
      match tp.next_nav_point with
      | none =>
        let tgt := path.getD (t.current_index + 1) 0
        let res := g.occupy tgt
        if res.1 then
          movePhase res.2 dt tr t { tp with next_nav_point := some tgt } path
        else
          { retired := false, transform := tr, traveler := t, position := tp, graph := res.2 }
      | some _ => movePhase g dt tr t tp path

/-- Three-waypoint straight chain at unit spacing (the shape of the
test_basic_route test). -/
def chain3 : NavGraph :=
  ((((((NavGraph.new).add_nav_point
      (NavPoint.new 1 { x := 0, y := 0, z := 0 } 1 1)).add_nav_point
      (NavPoint.new 2 { x := 0, y := 1, z := 0 } 1 1)).add_nav_point
      (NavPoint.new 3 { x := 0, y := 2, z := 0 } 1 1)).connect_points 1 2).connect_points 2 3)

/-- Two-waypoint straight chain whose single hop is 7000 units long: the hop
cost 7000^2 * 100 saturates the u32 cast. -/
def farChain : NavGraph :=
  ((((NavGraph.new).add_nav_point
      (NavPoint.new 1 { x := 0, y := 0, z := 0 } 1 1)).add_nav_point
      (NavPoint.new 2 { x := 7000, y := 0, z := 0 } 1 1)).connect_points 1 2)

/-- Waypoints 1 and 2 connected, then waypoint 1 added again with the
constructor's empty connection set: the replacement leaves 2 pointing at 1
but not conversely. -/
def gBroken : NavGraph :=
  farChain.add_nav_point (NavPoint.new 1 { x := 0, y := 0, z := 0 } 1 1)

/-- Diamond graph of the test_occupancy test: 1 at the bottom, intermediates
2 and 3, 4 at the top, all of capacity one. -/
def diamond : NavGraph :=
  ((((((((NavGraph.new).add_nav_point
      (NavPoint.new 1 { x := 0, y := 0, z := 0 } 1 1)).add_nav_point
      (NavPoint.new 2 { x := 0, y := 1, z := 0 } 1 1)).add_nav_point
      (NavPoint.new 3 { x := 1, y := 1, z := 0 } 1 1)).add_nav_point
      (NavPoint.new 4 { x := 0, y := 2, z := 0 } 1 1)).connect_points 1 2).connect_points
      1 3).connect_points 2 4).connect_points 3 4

/-- Diamond graph with intermediate 2 occupied to its maximum. -/
def diamondOcc : NavGraph :=
  (diamond.occupy 2).2

/-- Two connected waypoints with the destination 2 occupied to its maximum. -/
def gGoalFull : NavGraph :=
  (farChain.occupy 2).2

/-- Two connected waypoints one unit apart with the start 1 occupied to its
maximum. -/
def gStartFull : NavGraph :=
  ((((((NavGraph.new).add_nav_point
      (NavPoint.new 1 { x := 0, y := 0, z := 0 } 1 1)).add_nav_point
      (NavPoint.new 2 { x := 1, y := 0, z := 0 } 1 1)).connect_points 1 2).occupy 1)).2

/-- Two connected waypoints one unit apart, both holding one occupant of one,
used for the movement-step witnesses. -/
def gMove : NavGraph :=
  { points :=
      [(1, { id := 1, location := { x := 0, y := 0, z := 0 }, speed_modifier := 1,
             connections := [2], max_occupancy := 1, current_occupancy := 1 }),
       (2, { id := 2, location := { x := 1, y := 0, z := 0 }, speed_modifier := 1,
             connections := [1], max_occupancy := 1, current_occupancy := 1 })],
    highest_id := 2 }

/-- Like gMove but with waypoint 2 still free, used for the reservation
witness. -/
def gMoveFree : NavGraph :=
  { points :=
      [(1, { id := 1, location := { x := 0, y := 0, z := 0 }, speed_modifier := 1,
             connections := [2], max_occupancy := 1, current_occupancy := 1 }),
       (2, { id := 2, location := { x := 1, y := 0, z := 0 }, speed_modifier := 1,
             connections := [1], max_occupancy := 1, current_occupancy := 0 })],
    highest_id := 2 }

/-- Default AutoTraveler record (impl Default in src/traveler.rs) with the
given origin, destination and speed, as AutoTraveler::new. -/
def AutoTraveler.new (origin destination : ℕ) (speed : ℚ) : AutoTraveler :=
  { origin := origin, destination := destination, path := none, current_index := 0,
    speed := speed, blocked_behavior := BlockedBehavior.recompute,
    destination_behavior := DestinationBehavior.exactly,
    path_behavior := PathBehavior.precompute }

/-- Waypoint 1 connected to a saturated waypoint 2 and to a free waypoint 3,
used for the impassable-waypoint witness. -/
def gC4 : NavGraph :=
  { points :=
      [(1, { id := 1, location := { x := 0, y := 0, z := 0 }, speed_modifier := 1,
             connections := [2, 3], max_occupancy := 1, current_occupancy := 0 }),
       (2, { id := 2, location := { x := 1, y := 0, z := 0 }, speed_modifier := 1,
             connections := [1], max_occupancy := 1, current_occupancy := 1 }),
       (3, { id := 3, location := { x := 2, y := 0, z := 0 }, speed_modifier := 1,
             connections := [1], max_occupancy := 1, current_occupancy := 0 })],
    highest_id := 3 }

theorem alookup_cons {α : Type} (q : ℕ × α) (rest : List (ℕ × α)) (k : ℕ) :
    alookup (q :: rest) k = if q.1 = k then some q.2 else alookup rest k := rfl

theorem amodify_cons {α : Type} (q : ℕ × α) (rest : List (ℕ × α)) (k : ℕ) (f : α → α) :
    amodify (q :: rest) k f =
      if q.1 = k then (q.1, f q.2) :: rest else q :: amodify rest k f := rfl

theorem filterKey_cons {α : Type} (q : ℕ × α) (rest : List (ℕ × α)) (k : ℕ) :
    (q :: rest).filter (fun x => x.1 ≠ k) =
      if q.1 = k then rest.filter (fun x => x.1 ≠ k)
      else q :: rest.filter (fun x => x.1 ≠ k) := by
  by_cases hq : q.1 = k <;> simp [List.filter_cons, hq]

theorem alookup_ainsert_self {α : Type} (l : List (ℕ × α)) (k : ℕ) (v : α) :
    alookup (ainsert l k v) k = some v := by
  simp [ainsert, alookup]

theorem alookup_filterKey_ne {α : Type} {l : List (ℕ × α)} {k k2 : ℕ} (h : k2 ≠ k) :
    alookup (l.filter (fun q => q.1 ≠ k)) k2 = alookup l k2 := by
  induction l with
  | nil => rfl
  | cons q rest ih =>
    rw [filterKey_cons]
    by_cases hq : q.1 = k
    · have hq2 : q.1 ≠ k2 := fun hc => h (hc ▸ hq)
      rw [if_pos hq, ih, alookup_cons, if_neg hq2]
    · rw [if_neg hq, alookup_cons, alookup_cons, ih]

theorem alookup_filterKey_self {α : Type} (l : List (ℕ × α)) (k : ℕ) :
    alookup (l.filter (fun q => q.1 ≠ k)) k = none := by
  induction l with
  | nil => rfl
  | cons q rest ih =>
    rw [filterKey_cons]
    by_cases hq : q.1 = k
    · rw [if_pos hq]
      exact ih
    · rw [if_neg hq, alookup_cons, if_neg hq]
      exact ih

theorem alookup_ainsert_ne {α : Type} {l : List (ℕ × α)} {k k2 : ℕ} (v : α) (h : k2 ≠ k) :
    alookup (ainsert l k v) k2 = alookup l k2 := by
  have hk : k ≠ k2 := fun hc => h hc.symm
  unfold ainsert
  rw [alookup_cons, if_neg hk, alookup_filterKey_ne h]

theorem alookup_amodify_self {α : Type} (l : List (ℕ × α)) (k : ℕ) (f : α → α) :
    alookup (amodify l k f) k = (alookup l k).map f := by
  induction l with
  | nil => rfl
  | cons q rest ih =>
    rw [amodify_cons]
    by_cases hq : q.1 = k
    · rw [if_pos hq, alookup_cons, alookup_cons, if_pos hq, if_pos hq]
      rfl
    · rw [if_neg hq, alookup_cons, alookup_cons, if_neg hq, if_neg hq, ih]

theorem alookup_amodify_ne {α : Type} {l : List (ℕ × α)} {k k2 : ℕ} (f : α → α) (h : k2 ≠ k) :
    alookup (amodify l k f) k2 = alookup l k2 := by
  induction l with
  | nil => rfl
  | cons q rest ih =>
    rw [amodify_cons]
    by_cases hq : q.1 = k
    · have hq2 : q.1 ≠ k2 := fun hc => h (hc ▸ hq)
      rw [if_pos hq, alookup_cons, alookup_cons, if_neg hq2, if_neg hq2]
    · rw [if_neg hq, alookup_cons, alookup_cons, ih]

theorem amodify_eq_self {α : Type} {l : List (ℕ × α)} {k : ℕ} {f : α → α}
    (h : ∀ v, alookup l k = some v → f v = v) : amodify l k f = l := by
  induction l with
  | nil => rfl
  | cons q rest ih =>
    rw [amodify_cons]
    by_cases hq : q.1 = k
    · have hv : f q.2 = q.2 := by
        apply h
        rw [alookup_cons, if_pos hq]
      rw [if_pos hq, hv, Prod.mk.eta]
    · have hrest : ∀ v, alookup rest k = some v → f v = v := by
        intro v hv
        apply h
        rw [alookup_cons, if_neg hq]
        exact hv
      rw [if_neg hq, ih hrest]

theorem amodify_length {α : Type} (l : List (ℕ × α)) (k : ℕ) (f : α → α) :
    (amodify l k f).length = l.length := by
  induction l with
  | nil => rfl
  | cons q rest ih =>
    rw [amodify_cons]
    by_cases hq : q.1 = k
    · rw [if_pos hq]
      rfl
    · rw [if_neg hq]
      simpa using ih

theorem filterKey_of_absent {α : Type} {l : List (ℕ × α)} {k : ℕ}
    (h : alookup l k = none) : l.filter (fun q => q.1 ≠ k) = l := by
  induction l with
  | nil => rfl
  | cons q rest ih =>
    rw [alookup_cons] at h
    by_cases hq : q.1 = k
    · rw [if_pos hq] at h
      exact absurd h (by simp)
    · rw [if_neg hq] at h
      rw [filterKey_cons, if_neg hq, ih h]

theorem ainsert_length_of_absent {α : Type} {l : List (ℕ × α)} {k : ℕ} (v : α)
    (h : alookup l k = none) : (ainsert l k v).length = l.length + 1 := by
  unfold ainsert
  rw [filterKey_of_absent h]
  rfl

theorem mem_insertNat {l : List ℕ} {x y : ℕ} :
    x ∈ insertNat l y ↔ x = y ∨ x ∈ l := by
  unfold insertNat
  by_cases hy : y ∈ l
  · rw [if_pos hy]
    constructor
    · exact fun h => Or.inr h
    · rintro (rfl | h)
      · exact hy
      · exact h
  · rw [if_neg hy]
    exact List.mem_cons

theorem alookup_foldl_amodify {α : Type} (f : α → α) (hf : ∀ v, f (f v) = f v)
    (conns : List ℕ) (l : List (ℕ × α)) (k : ℕ) :
    alookup (conns.foldl (fun acc c => amodify acc c f) l) k =
      if k ∈ conns then (alookup l k).map f else alookup l k := by
  induction conns generalizing l with
  | nil => simp
  | cons c cs ih =>
    rw [List.foldl_cons, ih]
    by_cases hc : k = c
    · subst hc
      have hmem : k ∈ k :: cs := List.mem_cons_self k cs
      rw [if_pos hmem, alookup_amodify_self]
      by_cases hm : k ∈ cs
      · rw [if_pos hm]
        cases alookup l k with
        | none => rfl
        | some v => simp [hf]
      · rw [if_neg hm]
    · by_cases hm : k ∈ cs
      · have hmem : k ∈ c :: cs := List.mem_cons_of_mem c hm
        rw [if_pos hm, if_pos hmem, alookup_amodify_ne f hc]
      · have hmem : k ∉ c :: cs := by
          rw [List.mem_cons]
          rintro (h | h)
          · exact hc h
          · exact hm h
        rw [if_neg hm, if_neg hmem, alookup_amodify_ne f hc]

theorem reconstruct_succ (cf : List (ℕ × ℕ)) (a fuel cur : ℕ) :
    reconstruct cf a (fuel + 1) cur =
      if cur = a then some []
      else
        match alookup cf cur with
        | none => none
        | some prev =>
          match reconstruct cf a fuel prev with
          | none => none
          | some l => some (l ++ [cur]) := rfl

theorem astarLoop_succ (g : NavGraph) (a b : ℕ) (fuel : ℕ) (st : AStarState) :
    astarLoop g a b (fuel + 1) st =
      match popMin st.open_set with
      | none => none
      | some (current, rest) =>
        if current.id = b then
          reconstruct st.came_from a (st.came_from.length + 1) current.id
        else
          let st1 : AStarState :=
            { st with open_set := rest,
                      search_ids := st.search_ids.filter (fun x => x ≠ current.id) }
          match g.find? current.id with
          | none => astarLoop g a b fuel st1
          | some cnode => astarLoop g a b fuel (expand g b current.id st1 cnode.connections) := rfl

theorem astarFuel_pos (g : NavGraph) : 0 < astarFuel g := by
  unfold astarFuel
  positivity

theorem find_path_start_present (g : NavGraph) (a b : ℕ) (pa pb : NavPoint)
    (ha : g.find? a = some pa) (hb : g.find? b = some pb) :
    g.find_path a b = astarLoop g a b (astarFuel g)
      { search_ids := [a],
        open_set := [{ id := a, f := g.h_func a b }],
        came_from := [],
        g_score := [(a, 0)],
        f_score := [(a, g.h_func a b)] } := by
  unfold NavGraph.find_path
  rw [ha, hb]

/-- C2: the spec states that unoccupy decrements with a floor at zero, so
that unoccupy at occupancy zero leaves the occupancy at zero.  The code
computes (current_occupancy - 1).max(0) on the unsigned u32 counter: the
max-with-zero cannot clamp anything, and at occupancy zero the subtraction
underflows, wrapping (release builds) to 4294967295 instead of staying at
zero, a violation of the documented 0 <= occupancy <= max_occupancy bound;
debug builds panic.  This theorem evaluates the embedded code at the failing
input. -/
theorem unoccupy_underflow_eval :
    ((NavPoint.new 7 { x := 0, y := 0, z := 0 } 1 5).unoccupy).current_occupancy
      = 4294967295 := by
  rfl

/-- C5: for every id a present in the graph, find_path a a returns a present
result that is the empty sequence: the start node is popped first, it is the
goal, and the reconstruction walk terminates immediately. -/
theorem find_path_self_empty (g : NavGraph) (a : ℕ) (pt : NavPoint)
    (h : g.find? a = some pt) : g.find_path a a = some [] := by
  rw [find_path_start_present g a a pt pt h h]
  obtain ⟨m, hm⟩ : ∃ m, astarFuel g = m + 1 :=
    ⟨astarFuel g - 1, (Nat.succ_pred_eq_of_pos (astarFuel_pos g)).symm⟩
  rw [hm, astarLoop_succ]
  show (if a = a then reconstruct [] a 1 a else _) = some []
  rw [if_pos rfl, reconstruct_succ, if_pos rfl]

/-- Witness instantiating C5 on the three-node chain at its middle node. -/
theorem find_path_self_empty_witness : chain3.find_path 2 2 = some [] := by
  exact find_path_self_empty chain3 2
    { id := 2, location := { x := 0, y := 1, z := 0 }, speed_modifier := 1,
      connections := [3, 1], max_occupancy := 1, current_occupancy := 0 }
    (by decide)

theorem occupy_reduce (g : NavGraph) (id : ℕ) (pt : NavPoint) (h : g.find? id = some pt) :
    g.occupy id =
      ((pt.occupy).1, { g with points := amodify g.points id (fun q => (q.occupy).2) }) := by
  unfold NavGraph.occupy
  rw [h]

theorem stepNeighbor_some (g : NavGraph) (b cur : ℕ) (st : AStarState) (nid : ℕ)
    (npt : NavPoint) (h : g.find? nid = some npt) :
    stepNeighbor g b cur st nid =
      if npt.can_occupy then
        if (alookupD st.g_score cur 0 + g.h_func cur nid) % 4294967296 <
            alookupD st.g_score nid 4294967295 then
          if nid ∈ st.search_ids then
            { st with
              came_from := ainsert st.came_from nid cur,
              g_score := ainsert st.g_score nid
                ((alookupD st.g_score cur 0 + g.h_func cur nid) % 4294967296),
              f_score := ainsert st.f_score nid
                (((alookupD st.g_score cur 0 + g.h_func cur nid) % 4294967296
                  + g.h_func nid b) % 4294967296) }
          else
            { st with
              came_from := ainsert st.came_from nid cur,
              g_score := ainsert st.g_score nid
                ((alookupD st.g_score cur 0 + g.h_func cur nid) % 4294967296),
              f_score := ainsert st.f_score nid
                (((alookupD st.g_score cur 0 + g.h_func cur nid) % 4294967296
                  + g.h_func nid b) % 4294967296),
              search_ids := nid :: st.search_ids,
              open_set := st.open_set ++
                [{ id := nid,
                   f := ((alookupD st.g_score cur 0 + g.h_func cur nid) % 4294967296
                     + g.h_func nid b) % 4294967296 }] }
        else st
      else st := by
  unfold stepNeighbor
  rw [h]

theorem stepNeighbor_none (g : NavGraph) (b cur : ℕ) (st : AStarState) (nid : ℕ)
    (h : g.find? nid = none) : stepNeighbor g b cur st nid = st := by
  unfold stepNeighbor
  rw [h]

theorem stepNeighbor_full (g : NavGraph) (b cur : ℕ) (st : AStarState) (nid : ℕ)
    (npt : NavPoint) (h : g.find? nid = some npt) (hfull : npt.can_occupy = false) :
    stepNeighbor g b cur st nid = st := by
  rw [stepNeighbor_some g b cur st nid npt h, hfull]
  rfl

/-- Evaluation of the saturating cast at a natural number value. -/
theorem u32cast_coe_nat (n : ℕ) : u32cast (n : ℚ) = min n 4294967295 := by
  unfold u32cast
  rw [if_neg (not_lt.mpr (by positivity)), Int.floor_natCast]
  simp

/-- C6: occupy succeeds and increments the occupancy by exactly one iff the
waypoint exists and has headroom; on a full waypoint it reports false and
changes nothing; on an absent id it reports false and leaves the whole graph
unchanged, creating no entry. -/
theorem occupy_spec (g : NavGraph) (id : ℕ) (pt : NavPoint) :
    (g.find? id = some pt → pt.current_occupancy < pt.max_occupancy →
      (g.occupy id).1 = true ∧
      (g.occupy id).2.find? id =
        some { pt with current_occupancy := pt.current_occupancy + 1 } ∧
      ∀ k, k ≠ id → (g.occupy id).2.find? k = g.find? k) ∧
    (g.find? id = some pt → ¬ pt.current_occupancy < pt.max_occupancy →
      (g.occupy id).1 = false ∧ (g.occupy id).2 = g) ∧
    (g.find? id = none → (g.occupy id).1 = false ∧ (g.occupy id).2 = g) := by
  refine ⟨?_, ?_, ?_⟩
  · intro h hlt
    have hcan : pt.can_occupy = true := by
      unfold NavPoint.can_occupy
      exact decide_eq_true hlt
    have hocc : pt.occupy =
        (true, { pt with current_occupancy := pt.current_occupancy + 1 }) := by
      unfold NavPoint.occupy
      rw [hcan]
      rfl
    rw [occupy_reduce g id pt h]
    refine ⟨by rw [hocc], ?_, ?_⟩
    · show alookup (amodify g.points id (fun q => (q.occupy).2)) id = _
      rw [alookup_amodify_self]
      unfold NavGraph.find? at h
      rw [h]
      simp [hocc]
    · intro k hk
      show alookup (amodify g.points id (fun q => (q.occupy).2)) k = alookup g.points k
      exact alookup_amodify_ne _ hk
  · intro h hlt
    have hcan : pt.can_occupy = false := by
      unfold NavPoint.can_occupy
      exact decide_eq_false hlt
    have hocc : pt.occupy = (false, pt) := by
      unfold NavPoint.occupy
      rw [hcan]
      rfl
    rw [occupy_reduce g id pt h]
    refine ⟨by rw [hocc], ?_⟩
    have hfix : amodify g.points id (fun q => (q.occupy).2) = g.points := by
      apply amodify_eq_self
      intro v hv
      unfold NavGraph.find? at h
      rw [h] at hv
      cases hv
      rw [hocc]
    show { g with points := amodify g.points id (fun q => (q.occupy).2) } = g
    rw [hfix]
  · intro h
    unfold NavGraph.occupy
    rw [h]
    exact ⟨rfl, rfl⟩

/-- Witness instantiating C6: success on a free node, failure without
mutation on a full node, failure without mutation on an absent id. -/
theorem occupy_spec_witness :
    (gMoveFree.occupy 2).1 = true ∧
    (gMove.occupy 1).1 = false ∧ (gMove.occupy 1).2 = gMove ∧
    (gMove.occupy 99).1 = false ∧ (gMove.occupy 99).2 = gMove := by
  have h1 := (occupy_spec gMoveFree 2
    { id := 2, location := { x := 1, y := 0, z := 0 }, speed_modifier := 1,
      connections := [1], max_occupancy := 1, current_occupancy := 0 }).1
    (by decide) (by decide)
  have h2 := (occupy_spec gMove 1
    { id := 1, location := { x := 0, y := 0, z := 0 }, speed_modifier := 1,
      connections := [2], max_occupancy := 1, current_occupancy := 1 }).2.1
    (by decide) (by decide)
  have h3 := (occupy_spec gMove 99
    { id := 1, location := { x := 0, y := 0, z := 0 }, speed_modifier := 1,
      connections := [2], max_occupancy := 1, current_occupancy := 1 }).2.2
    (by decide)
  exact ⟨h1.1, h2.1, h2.2, h3.1, h3.2⟩

/-- C8: the cost and heuristic function of find_path equals, for waypoints x
and y present in the graph, the squared distance between their locations
divided by the speed modifier of the destination waypoint y, times 100,
truncated to an integer (the spec-side formula h_specFormula) -- asymmetric
in y's speed modifier; and the neighbor-expansion step uses this one
function both for the incremental path cost between the adjacent nodes
(added into the recorded g-score, u32 arithmetic) and for the
remaining-distance estimate to the goal (added on top for the f-score). -/
theorem h_func_spec (g : NavGraph) (x y : ℕ) (px py : NavPoint)
    (hx : g.find? x = some px) (hy : g.find? y = some py) :
    g.h_func x y = h_specFormula px py ∧
    (∀ (st : AStarState) (b : ℕ),
      py.can_occupy = true →
      (alookupD st.g_score x 0 + g.h_func x y) % 4294967296 <
        alookupD st.g_score y 4294967295 →
      alookup (stepNeighbor g b x st y).g_score y =
        some ((alookupD st.g_score x 0 + g.h_func x y) % 4294967296) ∧
      alookup (stepNeighbor g b x st y).f_score y =
        some (((alookupD st.g_score x 0 + g.h_func x y) % 4294967296 + g.h_func y b)
          % 4294967296)) := by
  constructor
  · unfold NavGraph.h_func h_specFormula
    rw [hx, hy]
  · intro st b hcan himp
    rw [stepNeighbor_some g b x st y py hy, hcan, if_pos rfl, if_pos himp]
    by_cases hmem : y ∈ st.search_ids
    · rw [if_pos hmem]
      exact ⟨alookup_ainsert_self _ _ _, alookup_ainsert_self _ _ _⟩
    · rw [if_neg hmem]
      exact ⟨alookup_ainsert_self _ _ _, alookup_ainsert_self _ _ _⟩

/-- Witness instantiating C8 on two unit-spaced waypoints and the empty
search state. -/
theorem h_func_spec_witness :
    gMoveFree.h_func 1 2 =
      h_specFormula
        { id := 1, location := { x := 0, y := 0, z := 0 }, speed_modifier := 1,
          connections := [2], max_occupancy := 1, current_occupancy := 1 }
        { id := 2, location := { x := 1, y := 0, z := 0 }, speed_modifier := 1,
          connections := [1], max_occupancy := 1, current_occupancy := 0 } ∧
    alookup (stepNeighbor gMoveFree 2 1
      { search_ids := [], open_set := [], came_from := [], g_score := [], f_score := [] }
      2).g_score 2 =
      some ((0 + gMoveFree.h_func 1 2) % 4294967296) := by
  have hval : gMoveFree.h_func 1 2 = 100 := by
    have hs : gMoveFree.h_func 1 2 =
        u32cast (Vec3.distance_squared { x := 0, y := 0, z := 0 } { x := 1, y := 0, z := 0 }
          / 1 * 100) := by
      unfold NavGraph.h_func
      rw [show gMoveFree.find? 1 = some
        { id := 1, location := { x := 0, y := 0, z := 0 }, speed_modifier := 1,
          connections := [2], max_occupancy := 1, current_occupancy := 1 } from by decide]
      rw [show gMoveFree.find? 2 = some
        { id := 2, location := { x := 1, y := 0, z := 0 }, speed_modifier := 1,
          connections := [1], max_occupancy := 1, current_occupancy := 0 } from by decide]
    rw [hs]
    have hq : Vec3.distance_squared { x := 0, y := 0, z := 0 } { x := 1, y := 0, z := 0 }
        / 1 * 100 = ((100 : ℕ) : ℚ) := by
      unfold Vec3.distance_squared
      norm_num
    rw [hq, u32cast_coe_nat]
    decide
  have h := h_func_spec gMoveFree 1 2
    { id := 1, location := { x := 0, y := 0, z := 0 }, speed_modifier := 1,
      connections := [2], max_occupancy := 1, current_occupancy := 1 }
    { id := 2, location := { x := 1, y := 0, z := 0 }, speed_modifier := 1,
      connections := [1], max_occupancy := 1, current_occupancy := 0 }
    (by decide) (by decide)
  refine ⟨h.1, ?_⟩
  have himp : ((alookupD ([] : List (ℕ × ℕ)) 1 0 + gMoveFree.h_func 1 2) % 4294967296 <
      alookupD ([] : List (ℕ × ℕ)) 2 4294967295) := by
    rw [hval]
    decide
  have h2 := (h.2
    { search_ids := [], open_set := [], came_from := [], g_score := [], f_score := [] }
    2 (by decide) himp).1
  exact h2

theorem popMin_cons_eq (n : PathNode) (rest : List PathNode) :
    popMin (n :: rest) =
      match popMin rest with
      | none => some (n, [])
      | some (m, rest2) => if n.f ≤ m.f then some (n, rest) else some (m, n :: rest2) := rfl

theorem popMin_cons_none {rest : List PathNode} (n : PathNode)
    (hm : popMin rest = none) : popMin (n :: rest) = some (n, []) := by
  rw [popMin_cons_eq, hm]

theorem popMin_cons_some {rest rest2 : List PathNode} {m : PathNode} (n : PathNode)
    (hm : popMin rest = some (m, rest2)) :
    popMin (n :: rest) =
      if n.f ≤ m.f then some (n, rest) else some (m, n :: rest2) := by
  rw [popMin_cons_eq, hm]

theorem popMin_mem : ∀ {l : List PathNode} {n : PathNode} {rest : List PathNode},
    popMin l = some (n, rest) → n ∈ l := by
  intro l
  induction l with
  | nil => intro n rest h; cases h
  | cons q tail ih =>
    intro n rest h
    cases hm : popMin tail with
    | none =>
      rw [popMin_cons_none q hm] at h
      cases h
      exact List.mem_cons_self _ _
    | some pr =>
      obtain ⟨m, rest2⟩ := pr
      rw [popMin_cons_some q hm] at h
      by_cases hf : q.f ≤ m.f
      · rw [if_pos hf] at h
        cases h
        exact List.mem_cons_self _ _
      · rw [if_neg hf] at h
        cases h
        exact List.mem_cons_of_mem _ (ih hm)

theorem popMin_subset : ∀ {l : List PathNode} {n : PathNode} {rest : List PathNode},
    popMin l = some (n, rest) → ∀ x ∈ rest, x ∈ l := by
  intro l
  induction l with
  | nil => intro n rest h; cases h
  | cons q tail ih =>
    intro n rest h
    cases hm : popMin tail with
    | none =>
      rw [popMin_cons_none q hm] at h
      cases h
      intro x hx
      cases hx
    | some pr =>
      obtain ⟨m, rest2⟩ := pr
      rw [popMin_cons_some q hm] at h
      by_cases hf : q.f ≤ m.f
      · rw [if_pos hf] at h
        cases h
        intro x hx
        exact List.mem_cons_of_mem _ hx
      · rw [if_neg hf] at h
        cases h
        intro x hx
        rcases List.mem_cons.mp hx with rfl | hx2
        · exact List.mem_cons_self _ _
        · exact List.mem_cons_of_mem _ (ih hm x hx2)

theorem stepNeighbor_open_mem {g : NavGraph} {b cur : ℕ} {st : AStarState} {nid : ℕ}
    {x : PathNode} (hx : x ∈ (stepNeighbor g b cur st nid).open_set) :
    x ∈ st.open_set ∨ ∃ pt, g.find? x.id = some pt ∧ pt.can_occupy = true := by
  cases hfind : g.find? nid with
  | none =>
    rw [stepNeighbor_none _ _ _ _ _ hfind] at hx
    exact Or.inl hx
  | some npt =>
    rw [stepNeighbor_some _ _ _ _ _ _ hfind] at hx
    by_cases hcan : npt.can_occupy = true
    · rw [if_pos hcan] at hx
      by_cases himp : (alookupD st.g_score cur 0 + g.h_func cur nid) % 4294967296 <
          alookupD st.g_score nid 4294967295
      · rw [if_pos himp] at hx
        by_cases hmem : nid ∈ st.search_ids
        · rw [if_pos hmem] at hx
          exact Or.inl hx
        · rw [if_neg hmem] at hx
          rcases List.mem_append.mp hx with h2 | h2
          · exact Or.inl h2
          · right
            have hxid : x.id = nid := by
              rcases List.mem_singleton.mp h2 with rfl
              rfl
            rw [hxid]
            exact ⟨npt, hfind, hcan⟩
      · rw [if_neg himp] at hx
        exact Or.inl hx
    · rw [if_neg hcan] at hx
      exact Or.inl hx

theorem expand_open_mem {g : NavGraph} {b cur : ℕ} {conns : List ℕ} {st : AStarState}
    {x : PathNode} (hx : x ∈ (expand g b cur st conns).open_set) :
    x ∈ st.open_set ∨ ∃ pt, g.find? x.id = some pt ∧ pt.can_occupy = true := by
  induction conns generalizing st with
  | nil => exact Or.inl hx
  | cons c cs ih =>
    rcases @ih (stepNeighbor g b cur st c) hx with h | h
    · exact stepNeighbor_open_mem h
    · exact Or.inr h

theorem stepNeighbor_cf_lookup {g : NavGraph} {b cur : ℕ} {st : AStarState} {nid : ℕ}
    {k v : ℕ} (h : alookup (stepNeighbor g b cur st nid).came_from k = some v) :
    alookup st.came_from k = some v ∨ ∃ pt, g.find? k = some pt ∧ pt.can_occupy = true := by
  cases hfind : g.find? nid with
  | none =>
    rw [stepNeighbor_none _ _ _ _ _ hfind] at h
    exact Or.inl h
  | some npt =>
    rw [stepNeighbor_some _ _ _ _ _ _ hfind] at h
    by_cases hcan : npt.can_occupy = true
    · rw [if_pos hcan] at h
      by_cases himp : (alookupD st.g_score cur 0 + g.h_func cur nid) % 4294967296 <
          alookupD st.g_score nid 4294967295
      · rw [if_pos himp] at h
        by_cases hk : k = nid
        · subst hk
          exact Or.inr ⟨npt, hfind, hcan⟩
        · by_cases hmem : nid ∈ st.search_ids
          · rw [if_pos hmem] at h
            rw [alookup_ainsert_ne _ hk] at h
            exact Or.inl h
          · rw [if_neg hmem] at h
            rw [alookup_ainsert_ne _ hk] at h
            exact Or.inl h
      · rw [if_neg himp] at h
        exact Or.inl h
    · rw [if_neg hcan] at h
      exact Or.inl h

theorem expand_cf_lookup {g : NavGraph} {b cur : ℕ} {conns : List ℕ} {st : AStarState}
    {k v : ℕ} (h : alookup (expand g b cur st conns).came_from k = some v) :
    alookup st.came_from k = some v ∨ ∃ pt, g.find? k = some pt ∧ pt.can_occupy = true := by
  induction conns generalizing st with
  | nil => exact Or.inl h
  | cons c cs ih =>
    rcases @ih (stepNeighbor g b cur st c) h with h2 | h2
    · exact stepNeighbor_cf_lookup h2
    · exact Or.inr h2

theorem reconstruct_start (cf : List (ℕ × ℕ)) (a fuel : ℕ) :
    reconstruct cf a (fuel + 1) a = some [] := by
  rw [reconstruct_succ, if_pos rfl]

theorem reconstruct_lookup_none {cf : List (ℕ × ℕ)} {a cur : ℕ} (fuel : ℕ)
    (hc : cur ≠ a) (hcf : alookup cf cur = none) :
    reconstruct cf a (fuel + 1) cur = none := by
  rw [reconstruct_succ, if_neg hc, hcf]

theorem reconstruct_step {cf : List (ℕ × ℕ)} {a cur prev : ℕ} (fuel : ℕ)
    (hc : cur ≠ a) (hcf : alookup cf cur = some prev) :
    reconstruct cf a (fuel + 1) cur =
      match reconstruct cf a fuel prev with
      | none => none
      | some l => some (l ++ [cur]) := by
  rw [reconstruct_succ, if_neg hc, hcf]

theorem reconstruct_mem_keys : ∀ {cf : List (ℕ × ℕ)} {a : ℕ} (fuel : ℕ) {cur : ℕ}
    {l : List ℕ}, reconstruct cf a fuel cur = some l → ∀ w ∈ l, ∃ v, alookup cf w = some v := by
  intro cf a fuel
  induction fuel with
  | zero => intro cur l h; cases h
  | succ fuel ih =>
    intro cur l h w hw
    by_cases hc : cur = a
    · subst hc
      rw [reconstruct_start] at h
      cases h
      cases hw
    · cases hcf : alookup cf cur with
      | none =>
        rw [reconstruct_lookup_none fuel hc hcf] at h
        cases h
      | some prev =>
        rw [reconstruct_step fuel hc hcf] at h
        cases hrec : reconstruct cf a fuel prev with
        | none => rw [hrec] at h; cases h
        | some l2 =>
          rw [hrec] at h
          cases h
          rcases List.mem_append.mp hw with h2 | h2
          · exact ih hrec w h2
          · rcases List.mem_singleton.mp h2 with rfl
            exact ⟨prev, hcf⟩

theorem astarLoop_pop_none (g : NavGraph) (a b fuel : ℕ) (st : AStarState)
    (hpop : popMin st.open_set = none) : astarLoop g a b (fuel + 1) st = none := by
  rw [astarLoop_succ, hpop]

theorem astarLoop_pop_some (g : NavGraph) (a b fuel : ℕ) (st : AStarState)
    (current : PathNode) (rest : List PathNode)
    (hpop : popMin st.open_set = some (current, rest)) :
    astarLoop g a b (fuel + 1) st =
      if current.id = b then
        reconstruct st.came_from a (st.came_from.length + 1) current.id
      else
        match g.find? current.id with
        | none => astarLoop g a b fuel
            { st with open_set := rest,
                      search_ids := st.search_ids.filter (fun x => x ≠ current.id) }
        | some cnode => astarLoop g a b fuel
            (expand g b current.id
              { st with open_set := rest,
                        search_ids := st.search_ids.filter (fun x => x ≠ current.id) }
              cnode.connections) := by
  rw [astarLoop_succ, hpop]

theorem astarLoop_goal (g : NavGraph) (a b fuel : ℕ) (st : AStarState)
    (current : PathNode) (rest : List PathNode)
    (hpop : popMin st.open_set = some (current, rest)) (hb : current.id = b) :
    astarLoop g a b (fuel + 1) st =
      reconstruct st.came_from a (st.came_from.length + 1) current.id := by
  rw [astarLoop_pop_some g a b fuel st current rest hpop, if_pos hb]

theorem astarLoop_skip (g : NavGraph) (a b fuel : ℕ) (st : AStarState)
    (current : PathNode) (rest : List PathNode)
    (hpop : popMin st.open_set = some (current, rest)) (hb : current.id ≠ b)
    (hfind : g.find? current.id = none) :
    astarLoop g a b (fuel + 1) st =
      astarLoop g a b fuel
        { st with open_set := rest,
                  search_ids := st.search_ids.filter (fun x => x ≠ current.id) } := by
  rw [astarLoop_pop_some g a b fuel st current rest hpop, if_neg hb, hfind]

theorem astarLoop_expand (g : NavGraph) (a b fuel : ℕ) (st : AStarState)
    (current : PathNode) (rest : List PathNode) (cnode : NavPoint)
    (hpop : popMin st.open_set = some (current, rest)) (hb : current.id ≠ b)
    (hfind : g.find? current.id = some cnode) :
    astarLoop g a b (fuel + 1) st =
      astarLoop g a b fuel
        (expand g b current.id
          { st with open_set := rest,
                    search_ids := st.search_ids.filter (fun x => x ≠ current.id) }
          cnode.connections) := by
  rw [astarLoop_pop_some g a b fuel st current rest hpop, if_neg hb, hfind]

theorem astarLoop_path_can_occupy (g : NavGraph) (a b : ℕ) :
    ∀ (fuel : ℕ) (st : AStarState),
      (∀ k v, alookup st.came_from k = some v →
        ∃ pt, g.find? k = some pt ∧ pt.can_occupy = true) →
      ∀ {p : List ℕ}, astarLoop g a b fuel st = some p →
        ∀ w ∈ p, ∃ pt, g.find? w = some pt ∧ pt.can_occupy = true := by
  intro fuel
  induction fuel with
  | zero => intro st _ p hres; cases hres
  | succ fuel ih =>
    intro st hcf p hres w hw
    cases hpop : popMin st.open_set with
    | none =>
      rw [astarLoop_pop_none g a b fuel st hpop] at hres
      cases hres
    | some pr =>
      obtain ⟨current, rest⟩ := pr
      by_cases hb : current.id = b
      · rw [astarLoop_goal g a b fuel st current rest hpop hb] at hres
        obtain ⟨v, hv⟩ := reconstruct_mem_keys _ hres w hw
        exact hcf w v hv
      · cases hfind : g.find? current.id with
        | none =>
          rw [astarLoop_skip g a b fuel st current rest hpop hb hfind] at hres
          exact ih
            { st with open_set := rest,
                      search_ids := st.search_ids.filter (fun x => x ≠ current.id) }
            (fun k v hv => hcf k v hv) hres w hw
        | some cnode =>
          rw [astarLoop_expand g a b fuel st current rest cnode hpop hb hfind] at hres
          refine ih _ ?_ hres w hw
          intro k v hv
          rcases expand_cf_lookup hv with h2 | h2
          · exact hcf k v h2
          · exact h2

theorem astarLoop_goal_unreachable (g : NavGraph) (a b : ℕ) (ptb : NavPoint)
    (hb : g.find? b = some ptb) (hfull : ptb.can_occupy = false) :
    ∀ (fuel : ℕ) (st : AStarState), (∀ n ∈ st.open_set, n.id ≠ b) →
      astarLoop g a b fuel st = none := by
  intro fuel
  induction fuel with
  | zero => intro st _; rfl
  | succ fuel ih =>
    intro st hop
    cases hpop : popMin st.open_set with
    | none => exact astarLoop_pop_none g a b fuel st hpop
    | some pr =>
      obtain ⟨current, rest⟩ := pr
      have hcb : current.id ≠ b := hop current (popMin_mem hpop)
      have hrest : ∀ n ∈ rest, n.id ≠ b := fun n hn => hop n (popMin_subset hpop n hn)
      cases hfind : g.find? current.id with
      | none =>
        rw [astarLoop_skip g a b fuel st current rest hpop hcb hfind]
        exact ih _ hrest
      | some cnode =>
        rw [astarLoop_expand g a b fuel st current rest cnode hpop hcb hfind]
        apply ih
        intro n hn
        rcases expand_open_mem hn with h | h
        · exact hrest n h
        · obtain ⟨pt, hf, hc⟩ := h
          intro hnb
          rw [hnb, hb] at hf
          cases hf
          rw [hfull] at hc
          cases hc

theorem find_path_absent (g : NavGraph) (a b : ℕ)
    (h : g.find? a = none ∨ g.find? b = none) : g.find_path a b = none := by
  unfold NavGraph.find_path
  rcases h with h | h
  · rw [h]
  · rw [h]
    cases g.find? a <;> rfl

/-- C4: a waypoint whose occupancy is at its maximum is never part of any
sequence returned by find_path (in particular never an intermediate hop):
every returned id was recorded in the predecessor map, and only neighbors
with occupancy headroom at the moment of the search are ever recorded; the
waypoint nevertheless stays in the graph and has_node keeps answering true. -/
theorem find_path_excludes_full (g : NavGraph) (a b : ℕ) (p : List ℕ) (w : ℕ)
    (ptw : NavPoint) (hres : g.find_path a b = some p) (hw : g.find? w = some ptw)
    (hfull : ptw.can_occupy = false) :
    w ∉ p ∧ g.has_node w = true := by
  constructor
  · intro hwp
    cases hfa : g.find? a with
    | none =>
      rw [find_path_absent g a b (Or.inl hfa)] at hres
      cases hres
    | some pa =>
      cases hfb : g.find? b with
      | none =>
        rw [find_path_absent g a b (Or.inr hfb)] at hres
        cases hres
      | some pb =>
        rw [find_path_start_present g a b pa pb hfa hfb] at hres
        have hocc := astarLoop_path_can_occupy g a b (astarFuel g) _
          (by intro k v hv; cases hv) hres w hwp
        obtain ⟨pt2, hf2, hc2⟩ := hocc
        rw [hw] at hf2
        cases hf2
        rw [hfull] at hc2
        cases hc2
  · unfold NavGraph.has_node
    rw [hw]
    rfl

theorem h_func_present (g : NavGraph) (x y : ℕ) (px py : NavPoint)
    (hx : g.find? x = some px) (hy : g.find? y = some py) :
    g.h_func x y =
      u32cast (Vec3.distance_squared px.location py.location / py.speed_modifier * 100) := by
  unfold NavGraph.h_func
  rw [hx, hy]

theorem h_func_eval (g : NavGraph) (x y : ℕ) (px py : NavPoint) (n : ℕ)
    (hx : g.find? x = some px) (hy : g.find? y = some py)
    (hq : Vec3.distance_squared px.location py.location / py.speed_modifier * 100 = (n : ℚ))
    (hn : n ≤ 4294967295) : g.h_func x y = n := by
  rw [h_func_present g x y px py hx hy, hq, u32cast_coe_nat]
  exact min_eq_left hn

theorem h_func_eval_sat (g : NavGraph) (x y : ℕ) (px py : NavPoint) (n : ℕ)
    (hx : g.find? x = some px) (hy : g.find? y = some py)
    (hq : Vec3.distance_squared px.location py.location / py.speed_modifier * 100 = (n : ℚ))
    (hn : 4294967295 ≤ n) : g.h_func x y = 4294967295 := by
  rw [h_func_present g x y px py hx hy, hq, u32cast_coe_nat]
  exact min_eq_right hn

theorem gC4_h13 : gC4.h_func 1 3 = 400 := by
  apply h_func_eval gC4 1 3
    { id := 1, location := { x := 0, y := 0, z := 0 }, speed_modifier := 1,
      connections := [2, 3], max_occupancy := 1, current_occupancy := 0 }
    { id := 3, location := { x := 2, y := 0, z := 0 }, speed_modifier := 1,
      connections := [1], max_occupancy := 1, current_occupancy := 0 }
    400 (by decide) (by decide)
  · unfold Vec3.distance_squared
    norm_num
  · norm_num

theorem gC4_h33 : gC4.h_func 3 3 = 0 := by
  apply h_func_eval gC4 3 3
    { id := 3, location := { x := 2, y := 0, z := 0 }, speed_modifier := 1,
      connections := [1], max_occupancy := 1, current_occupancy := 0 }
    { id := 3, location := { x := 2, y := 0, z := 0 }, speed_modifier := 1,
      connections := [1], max_occupancy := 1, current_occupancy := 0 }
    0 (by decide) (by decide)
  · unfold Vec3.distance_squared
    norm_num
  · norm_num

theorem gC4_eval : gC4.find_path 1 3 = some [3] := by
  rw [find_path_start_present gC4 1 3
    { id := 1, location := { x := 0, y := 0, z := 0 }, speed_modifier := 1,
      connections := [2, 3], max_occupancy := 1, current_occupancy := 0 }
    { id := 3, location := { x := 2, y := 0, z := 0 }, speed_modifier := 1,
      connections := [1], max_occupancy := 1, current_occupancy := 0 }
    (by decide) (by decide)]
  rw [gC4_h13]
  rw [show astarFuel gC4 = 17179869183 + 1 from by decide]
  rw [astarLoop_expand gC4 1 3 17179869183
    { search_ids := [1], open_set := [{ id := 1, f := 400 }], came_from := [],
      g_score := [(1, 0)], f_score := [(1, 400)] }
    { id := 1, f := 400 } []
    { id := 1, location := { x := 0, y := 0, z := 0 }, speed_modifier := 1,
      connections := [2, 3], max_occupancy := 1, current_occupancy := 0 }
    rfl (by decide) (by decide)]
  have hexp : expand gC4 3 1
      { search_ids := List.filter (fun x => x ≠ 1) [1], open_set := [], came_from := [],
        g_score := [(1, 0)], f_score := [(1, 400)] } [2, 3] =
      { search_ids := [3], open_set := [{ id := 3, f := 400 }], came_from := [(3, 1)],
        g_score := [(3, 400), (1, 0)], f_score := [(3, 400), (1, 400)] } := by
    unfold expand
    rw [List.foldl_cons]
    rw [stepNeighbor_full gC4 3 1 _ 2
      { id := 2, location := { x := 1, y := 0, z := 0 }, speed_modifier := 1,
        connections := [1], max_occupancy := 1, current_occupancy := 1 }
      (by decide) (by decide)]
    rw [List.foldl_cons]
    rw [stepNeighbor_some gC4 3 1 _ 3
      { id := 3, location := { x := 2, y := 0, z := 0 }, speed_modifier := 1,
        connections := [1], max_occupancy := 1, current_occupancy := 0 }
      (by decide)]
    rw [gC4_h13, gC4_h33, List.foldl_nil]
    decide
  rw [show (expand gC4 3 1
      { search_ids := List.filter (fun x => x ≠ ({ id := 1, f := 400 } : PathNode).id) [1],
        open_set := [], came_from := [], g_score := [(1, 0)], f_score := [(1, 400)] }
      ({ id := 1, location := { x := 0, y := 0, z := 0 }, speed_modifier := 1,
         connections := [2, 3], max_occupancy := 1,
         current_occupancy := 0 } : NavPoint).connections) =
      expand gC4 3 1
      { search_ids := List.filter (fun x => x ≠ 1) [1], open_set := [], came_from := [],
        g_score := [(1, 0)], f_score := [(1, 400)] } [2, 3] from rfl]
  rw [hexp]
  rw [show (17179869183 : ℕ) = 17179869182 + 1 from by norm_num]
  rw [astarLoop_goal gC4 1 3 17179869182
    { search_ids := [3], open_set := [{ id := 3, f := 400 }], came_from := [(3, 1)],
      g_score := [(3, 400), (1, 0)], f_score := [(3, 400), (1, 400)] }
    { id := 3, f := 400 } [] rfl rfl]
  decide

/-- Witness instantiating C4: on gC4 the search returns the path [3], which
avoids the saturated waypoint 2, and 2 is still in the graph. -/
theorem find_path_excludes_full_witness : 2 ∉ [3] ∧ gC4.has_node 2 = true := by
  exact find_path_excludes_full gC4 1 3 [3] 2
    { id := 2, location := { x := 1, y := 0, z := 0 }, speed_modifier := 1,
      connections := [1], max_occupancy := 1, current_occupancy := 1 }
    gC4_eval (by decide) (by decide)

theorem gStartFull_h12 : gStartFull.h_func 1 2 = 100 := by
  apply h_func_eval gStartFull 1 2
    { id := 1, location := { x := 0, y := 0, z := 0 }, speed_modifier := 1,
      connections := [2], max_occupancy := 1, current_occupancy := 1 }
    { id := 2, location := { x := 1, y := 0, z := 0 }, speed_modifier := 1,
      connections := [1], max_occupancy := 1, current_occupancy := 0 }
    100 (by decide) (by decide)
  · unfold Vec3.distance_squared
    norm_num
  · norm_num

theorem gStartFull_h22 : gStartFull.h_func 2 2 = 0 := by
  apply h_func_eval gStartFull 2 2
    { id := 2, location := { x := 1, y := 0, z := 0 }, speed_modifier := 1,
      connections := [1], max_occupancy := 1, current_occupancy := 0 }
    { id := 2, location := { x := 1, y := 0, z := 0 }, speed_modifier := 1,
      connections := [1], max_occupancy := 1, current_occupancy := 0 }
    0 (by decide) (by decide)
  · unfold Vec3.distance_squared
    norm_num
  · norm_num

theorem gStartFull_eval : gStartFull.find_path 1 2 = some [2] := by
  rw [find_path_start_present gStartFull 1 2
    { id := 1, location := { x := 0, y := 0, z := 0 }, speed_modifier := 1,
      connections := [2], max_occupancy := 1, current_occupancy := 1 }
    { id := 2, location := { x := 1, y := 0, z := 0 }, speed_modifier := 1,
      connections := [1], max_occupancy := 1, current_occupancy := 0 }
    (by decide) (by decide)]
  rw [gStartFull_h12]
  rw [show astarFuel gStartFull = 12884901887 + 1 from by decide]
  rw [astarLoop_expand gStartFull 1 2 12884901887
    { search_ids := [1], open_set := [{ id := 1, f := 100 }], came_from := [],
      g_score := [(1, 0)], f_score := [(1, 100)] }
    { id := 1, f := 100 } []
    { id := 1, location := { x := 0, y := 0, z := 0 }, speed_modifier := 1,
      connections := [2], max_occupancy := 1, current_occupancy := 1 }
    rfl (by decide) (by decide)]
  have hexp : expand gStartFull 2 1
      { search_ids := List.filter (fun x => x ≠ 1) [1], open_set := [], came_from := [],
        g_score := [(1, 0)], f_score := [(1, 100)] } [2] =
      { search_ids := [2], open_set := [{ id := 2, f := 100 }], came_from := [(2, 1)],
        g_score := [(2, 100), (1, 0)], f_score := [(2, 100), (1, 100)] } := by
    unfold expand
    rw [List.foldl_cons]
    rw [stepNeighbor_some gStartFull 2 1 _ 2
      { id := 2, location := { x := 1, y := 0, z := 0 }, speed_modifier := 1,
        connections := [1], max_occupancy := 1, current_occupancy := 0 }
      (by decide)]
    rw [gStartFull_h12, gStartFull_h22, List.foldl_nil]
    decide
  rw [show (expand gStartFull 2 1
      { search_ids := List.filter (fun x => x ≠ ({ id := 1, f := 100 } : PathNode).id) [1],
        open_set := [], came_from := [], g_score := [(1, 0)], f_score := [(1, 100)] }
      ({ id := 1, location := { x := 0, y := 0, z := 0 }, speed_modifier := 1,
         connections := [2], max_occupancy := 1,
         current_occupancy := 1 } : NavPoint).connections) =
      expand gStartFull 2 1
      { search_ids := List.filter (fun x => x ≠ 1) [1], open_set := [], came_from := [],
        g_score := [(1, 0)], f_score := [(1, 100)] } [2] from rfl]
  rw [hexp]
  rw [show (12884901887 : ℕ) = 12884901886 + 1 from by norm_num]
  rw [astarLoop_goal gStartFull 1 2 12884901886
    { search_ids := [2], open_set := [{ id := 2, f := 100 }], came_from := [(2, 1)],
      g_score := [(2, 100), (1, 0)], f_score := [(2, 100), (1, 100)] }
    { id := 2, f := 100 } [] rfl rfl]
  decide

theorem farChain_h12 : farChain.h_func 1 2 = 4294967295 := by
  apply h_func_eval_sat farChain 1 2
    { id := 1, location := { x := 0, y := 0, z := 0 }, speed_modifier := 1,
      connections := [2], max_occupancy := 1, current_occupancy := 0 }
    { id := 2, location := { x := 7000, y := 0, z := 0 }, speed_modifier := 1,
      connections := [1], max_occupancy := 1, current_occupancy := 0 }
    4900000000 (by decide) (by decide)
  · unfold Vec3.distance_squared
    norm_num
  · norm_num

theorem farChain_eval : farChain.find_path 1 2 = none := by
  rw [find_path_start_present farChain 1 2
    { id := 1, location := { x := 0, y := 0, z := 0 }, speed_modifier := 1,
      connections := [2], max_occupancy := 1, current_occupancy := 0 }
    { id := 2, location := { x := 7000, y := 0, z := 0 }, speed_modifier := 1,
      connections := [1], max_occupancy := 1, current_occupancy := 0 }
    (by decide) (by decide)]
  rw [farChain_h12]
  rw [show astarFuel farChain = 12884901887 + 1 from by decide]
  rw [astarLoop_expand farChain 1 2 12884901887
    { search_ids := [1], open_set := [{ id := 1, f := 4294967295 }], came_from := [],
      g_score := [(1, 0)], f_score := [(1, 4294967295)] }
    { id := 1, f := 4294967295 } []
    { id := 1, location := { x := 0, y := 0, z := 0 }, speed_modifier := 1,
      connections := [2], max_occupancy := 1, current_occupancy := 0 }
    rfl (by decide) (by decide)]
  have hexp : expand farChain 2 1
      { search_ids := List.filter (fun x => x ≠ 1) [1], open_set := [], came_from := [],
        g_score := [(1, 0)], f_score := [(1, 4294967295)] } [2] =
      { search_ids := List.filter (fun x => x ≠ 1) [1], open_set := [], came_from := [],
        g_score := [(1, 0)], f_score := [(1, 4294967295)] } := by
    unfold expand
    rw [List.foldl_cons]
    rw [stepNeighbor_some farChain 2 1 _ 2
      { id := 2, location := { x := 7000, y := 0, z := 0 }, speed_modifier := 1,
        connections := [1], max_occupancy := 1, current_occupancy := 0 }
      (by decide)]
    rw [farChain_h12, List.foldl_nil]
    decide
  rw [show (expand farChain 2 1
      { search_ids := List.filter
          (fun x => x ≠ ({ id := 1, f := 4294967295 } : PathNode).id) [1],
        open_set := [], came_from := [], g_score := [(1, 0)],
        f_score := [(1, 4294967295)] }
      ({ id := 1, location := { x := 0, y := 0, z := 0 }, speed_modifier := 1,
         connections := [2], max_occupancy := 1,
         current_occupancy := 0 } : NavPoint).connections) =
      expand farChain 2 1
      { search_ids := List.filter (fun x => x ≠ 1) [1], open_set := [], came_from := [],
        g_score := [(1, 0)], f_score := [(1, 4294967295)] } [2] from rfl]
  rw [hexp]
  rw [show (12884901887 : ℕ) = 12884901886 + 1 from by norm_num]
  rw [astarLoop_pop_none farChain 1 2 12884901886
    { search_ids := List.filter (fun x => x ≠ 1) [1], open_set := [], came_from := [],
      g_score := [(1, 0)], f_score := [(1, 4294967295)] } rfl]

/-- C9: find_path never tests the occupancy of the start node: on gStartFull,
whose start waypoint 1 is at its maximum occupancy, the search still returns
the path [2].  By contrast, for a distinct destination b, b is subject to the
same can_occupy filter as every other neighbor: whenever b is present but at
maximum occupancy (and the graph has no dangling connection ids, so the
search cannot hit a lookup panic), find_path a b is absent, because the goal
can only be popped after being pushed as a neighbor with headroom. -/
theorem find_path_start_vs_goal_occupancy :
    ((gStartFull.find? 1).map (fun p => decide (p.current_occupancy = p.max_occupancy))
        = some true ∧
      gStartFull.find_path 1 2 = some [2]) ∧
    ∀ (g : NavGraph) (a b : ℕ) (ptb : NavPoint), closedCheck g = true → a ≠ b →
      g.find? b = some ptb → ptb.can_occupy = false → g.find_path a b = none := by
  constructor
  · exact ⟨by decide, gStartFull_eval⟩
  · intro g a b ptb _ hab hb hfull
    cases hfa : g.find? a with
    | none => exact find_path_absent g a b (Or.inl hfa)
    | some pa =>
      rw [find_path_start_present g a b pa ptb hfa hb]
      apply astarLoop_goal_unreachable g a b ptb hb hfull
      intro n hn
      rcases List.mem_singleton.mp hn with rfl
      exact hab

/-- Witness instantiating the universal part of C9 on a closed two-waypoint
graph whose destination is saturated. -/
theorem find_path_goal_full_witness : gGoalFull.find_path 1 2 = none := by
  exact find_path_start_vs_goal_occupancy.2 gGoalFull 1 2
    { id := 2, location := { x := 7000, y := 0, z := 0 }, speed_modifier := 1,
      connections := [1], max_occupancy := 1, current_occupancy := 1 }
    (by decide) (by decide) (by decide) (by decide)

/-- C1 counterexample: farChain is a straight chain of two connected
waypoints, both with occupancy headroom, yet find_path on it returns the
absent result rather than the remaining id [2]: the single hop is 7000 units
long, its cost 7000^2 * 100 saturates the u32 cast to u32::MAX, and a
tentative score of u32::MAX can never beat the u32::MAX default, so the
neighbor is never enqueued. -/
theorem chain_far_no_path :
    (∃ p1, farChain.find? 1 = some p1 ∧ p1.connections = [2] ∧ p1.can_occupy = true) ∧
    (∃ p2, farChain.find? 2 = some p2 ∧ p2.connections = [1] ∧ p2.can_occupy = true) ∧
    farChain.find_path 1 2 ≠ some [2] := by
  refine ⟨⟨{ id := 1, location := { x := 0, y := 0, z := 0 }, speed_modifier := 1,
             connections := [2], max_occupancy := 1, current_occupancy := 0 },
           by decide, by decide, by decide⟩,
          ⟨{ id := 2, location := { x := 7000, y := 0, z := 0 }, speed_modifier := 1,
             connections := [1], max_occupancy := 1, current_occupancy := 0 },
           by decide, by decide, by decide⟩, ?_⟩
  rw [farChain_eval]
  intro h
  cases h

theorem movePhase_nores (g : NavGraph) (dt : ℚ) (tr : Transform) (t : AutoTraveler)
    (tp : TravelerPosition) (path : List ℕ) (hn : tp.next_nav_point = none) :
    movePhase g dt tr t tp path =
      { retired := false, transform := tr, traveler := t, position := tp, graph := g } := by
  unfold movePhase
  rw [hn]

theorem movePhase_reserved (g : NavGraph) (dt : ℚ) (tr : Transform) (t : AutoTraveler)
    (tp : TravelerPosition) (path : List ℕ) (nxt : ℕ) (hn : tp.next_nav_point = some nxt) :
    movePhase g dt tr t tp path =
      match g.get_nav_point tp.current_nav_point, g.get_nav_point nxt with
      | some fromPt, some toPt =>
        if snapCond (tickMovement fromPt toPt t.speed dt) tr toPt then
          { retired := false,
            transform := { translation := toPt.location.toR },
            traveler := { t with current_index := t.current_index + 1 },
            position := { current_nav_point := path.getD (t.current_index + 1) 0,
                          next_nav_point := none },
            graph := g.unoccupy tp.current_nav_point }
        else
          let tr2 : Transform :=
            { translation := Vec3R.add tr.translation (tickMovement fromPt toPt t.speed dt) }
          { retired := false, transform := tr2, traveler := t, position := tp, graph := g }
      | _, _ =>
        { retired := false, transform := tr, traveler := t, position := tp, graph := g } := by
  unfold movePhase
  rw [hn]

theorem movePhase_run (g : NavGraph) (dt : ℚ) (tr : Transform) (t : AutoTraveler)
    (tp : TravelerPosition) (path : List ℕ) (nxt : ℕ) (fromPt toPt : NavPoint)
    (hn : tp.next_nav_point = some nxt)
    (hfrom : g.get_nav_point tp.current_nav_point = some fromPt)
    (hto : g.get_nav_point nxt = some toPt) :
    movePhase g dt tr t tp path =
      if snapCond (tickMovement fromPt toPt t.speed dt) tr toPt then
        { retired := false,
          transform := { translation := toPt.location.toR },
          traveler := { t with current_index := t.current_index + 1 },
          position := { current_nav_point := path.getD (t.current_index + 1) 0,
                        next_nav_point := none },
          graph := g.unoccupy tp.current_nav_point }
      else
        let tr2 : Transform :=
          { translation := Vec3R.add tr.translation (tickMovement fromPt toPt t.speed dt) }
        { retired := false, transform := tr2, traveler := t, position := tp, graph := g } := by
  rw [movePhase_reserved g dt tr t tp path nxt hn, hfrom, hto]

theorem move_traveler_no_path (g : NavGraph) (dt : ℚ) (tr : Transform) (t : AutoTraveler)
    (tp : TravelerPosition) (h : t.path = none) :
    move_traveler g dt tr t tp =
      { retired := false, transform := tr, traveler := t, position := tp, graph := g } := by
  unfold move_traveler
  rw [h]

theorem move_traveler_some_path (g : NavGraph) (dt : ℚ) (tr : Transform) (t : AutoTraveler)
    (tp : TravelerPosition) (path : List ℕ) (h : t.path = some path) :
    move_traveler g dt tr t tp =
      if path.length ≤ t.current_index + 1 then
        { retired := true, transform := tr, traveler := t, position := tp, graph := g }
      else
        match tp.next_nav_point with
        | none =>
          if (g.occupy (path.getD (t.current_index + 1) 0)).1 then
            movePhase (g.occupy (path.getD (t.current_index + 1) 0)).2 dt tr t
              { tp with next_nav_point := some (path.getD (t.current_index + 1) 0) } path
          else
            { retired := false, transform := tr, traveler := t, position := tp,
              graph := (g.occupy (path.getD (t.current_index + 1) 0)).2 }
        | some _ => movePhase g dt tr t tp path := by
  unfold move_traveler
  rw [h]

theorem move_traveler_arrived (g : NavGraph) (dt : ℚ) (tr : Transform) (t : AutoTraveler)
    (tp : TravelerPosition) (path : List ℕ) (h : t.path = some path)
    (hlen : path.length ≤ t.current_index + 1) :
    move_traveler g dt tr t tp =
      { retired := true, transform := tr, traveler := t, position := tp, graph := g } := by
  rw [move_traveler_some_path g dt tr t tp path h, if_pos hlen]

theorem move_traveler_reserved (g : NavGraph) (dt : ℚ) (tr : Transform) (t : AutoTraveler)
    (tp : TravelerPosition) (path : List ℕ) (nxt : ℕ) (h : t.path = some path)
    (hlen : ¬ path.length ≤ t.current_index + 1) (hn : tp.next_nav_point = some nxt) :
    move_traveler g dt tr t tp = movePhase g dt tr t tp path := by
  rw [move_traveler_some_path g dt tr t tp path h, if_neg hlen, hn]

theorem move_traveler_reserve (g : NavGraph) (dt : ℚ) (tr : Transform) (t : AutoTraveler)
    (tp : TravelerPosition) (path : List ℕ) (h : t.path = some path)
    (hlen : ¬ path.length ≤ t.current_index + 1) (hn : tp.next_nav_point = none) :
    move_traveler g dt tr t tp =
      if (g.occupy (path.getD (t.current_index + 1) 0)).1 then
        movePhase (g.occupy (path.getD (t.current_index + 1) 0)).2 dt tr t
          { tp with next_nav_point := some (path.getD (t.current_index + 1) 0) } path
      else
        { retired := false, transform := tr, traveler := t, position := tp,
          graph := (g.occupy (path.getD (t.current_index + 1) 0)).2 } := by
  rw [move_traveler_some_path g dt tr t tp path h, if_neg hlen, hn]

theorem movePhase_index (g : NavGraph) (dt : ℚ) (tr : Transform) (t : AutoTraveler)
    (tp : TravelerPosition) (path : List ℕ) :
    (movePhase g dt tr t tp path).traveler.current_index = t.current_index ∨
    ((movePhase g dt tr t tp path).traveler.current_index = t.current_index + 1 ∧
     (movePhase g dt tr t tp path).position.next_nav_point = none ∧
     (movePhase g dt tr t tp path).retired = false) := by
  cases hn : tp.next_nav_point with
  | none =>
    rw [movePhase_nores g dt tr t tp path hn]
    exact Or.inl rfl
  | some nxt =>
    cases hfrom : g.get_nav_point tp.current_nav_point with
    | none =>
      rw [movePhase_reserved g dt tr t tp path nxt hn, hfrom]
      cases g.get_nav_point nxt
      · exact Or.inl rfl
      · exact Or.inl rfl
    | some fromPt =>
      cases hto : g.get_nav_point nxt with
      | none =>
        rw [movePhase_reserved g dt tr t tp path nxt hn, hfrom, hto]
        exact Or.inl rfl
      | some toPt =>
        rw [movePhase_run g dt tr t tp path nxt fromPt toPt hn hfrom hto]
        by_cases hs : snapCond (tickMovement fromPt toPt t.speed dt) tr toPt
        · rw [if_pos hs]
          exact Or.inr ⟨rfl, rfl, rfl⟩
        · rw [if_neg hs]
          exact Or.inl rfl

theorem move_traveler_index (g : NavGraph) (dt : ℚ) (tr : Transform) (t : AutoTraveler)
    (tp : TravelerPosition) :
    (move_traveler g dt tr t tp).traveler.current_index = t.current_index ∨
    ((move_traveler g dt tr t tp).traveler.current_index = t.current_index + 1 ∧
     (move_traveler g dt tr t tp).position.next_nav_point = none ∧
     (move_traveler g dt tr t tp).retired = false) := by
  cases hp : t.path with
  | none =>
    rw [move_traveler_no_path g dt tr t tp hp]
    exact Or.inl rfl
  | some path =>
    by_cases hlen : path.length ≤ t.current_index + 1
    · rw [move_traveler_arrived g dt tr t tp path hp hlen]
      exact Or.inl rfl
    · cases hn : tp.next_nav_point with
      | none =>
        rw [move_traveler_reserve g dt tr t tp path hp hlen hn]
        by_cases hocc : (g.occupy (path.getD (t.current_index + 1) 0)).1 = true
        · rw [if_pos hocc]
          exact movePhase_index _ dt tr t _ path
        · rw [if_neg hocc]
          exact Or.inl rfl
      | some nxt =>
        rw [move_traveler_reserved g dt tr t tp path nxt hp hlen hn]
        exact movePhase_index g dt tr t tp path

theorem occupy_failed_eq (g : NavGraph) (id : ℕ) (h : (g.occupy id).1 = false) :
    (g.occupy id).2 = g := by
  cases hf : g.find? id with
  | none =>
    unfold NavGraph.occupy
    rw [hf]
  | some pt =>
    rw [occupy_reduce g id pt hf] at h ⊢
    have hcan : pt.can_occupy = false := by
      by_cases hc : pt.can_occupy = true
      · exfalso
        unfold NavPoint.occupy at h
        rw [hc] at h
        cases h
      · revert hc
        cases pt.can_occupy <;> simp
    have hocc : pt.occupy = (false, pt) := by
      unfold NavPoint.occupy
      rw [hcan]
      rfl
    have hfix : amodify g.points id (fun q => (q.occupy).2) = g.points := by
      apply amodify_eq_self
      intro v hv
      unfold NavGraph.find? at hf
      rw [hf] at hv
      cases hv
      rw [hocc]
    show { g with points := amodify g.points id (fun q => (q.occupy).2) } = g
    rw [hfix]

/-- C7: a moving traveler holding a reservation (its reserved id is the path
entry at current_index + 1, and both the departed and reserved waypoints are
present) snaps exactly onto the reserved waypoint's location, releases the
departed waypoint via unoccupy, commits the reserved waypoint as current,
clears the reservation and advances current_index by one, exactly when the
tick's squared displacement is at least the squared remaining distance or
that squared remaining distance is at most 0.001 squared; otherwise the
displacement is accumulated into the position and the traveler state is
unchanged.  The final conjunct shows the snap branch is the only place the
per-tick update ever increments current_index: for every input state the
index either stays or rises by exactly one with the reservation cleared. -/
theorem move_traveler_tick (g : NavGraph) (dt : ℚ) (tr : Transform) (t : AutoTraveler)
    (tp : TravelerPosition) (p : List ℕ) (nxt : ℕ) (fromPt toPt : NavPoint)
    (hpath : t.path = some p) (hlen : t.current_index + 1 < p.length)
    (hnxt : tp.next_nav_point = some nxt) (hres : p.getD (t.current_index + 1) 0 = nxt)
    (hfrom : g.get_nav_point tp.current_nav_point = some fromPt)
    (hto : g.get_nav_point nxt = some toPt) :
    (snapCond (tickMovement fromPt toPt t.speed dt) tr toPt →
      move_traveler g dt tr t tp =
        { retired := false, transform := { translation := toPt.location.toR },
          traveler := { t with current_index := t.current_index + 1 },
          position := { current_nav_point := nxt, next_nav_point := none },
          graph := g.unoccupy tp.current_nav_point }) ∧
    (¬ snapCond (tickMovement fromPt toPt t.speed dt) tr toPt →
      move_traveler g dt tr t tp =
        { retired := false,
          transform :=
            { translation := Vec3R.add tr.translation (tickMovement fromPt toPt t.speed dt) },
          traveler := t, position := tp, graph := g }) ∧
    (∀ (t2 : AutoTraveler) (tp2 : TravelerPosition) (tr2 : Transform),
      (move_traveler g dt tr2 t2 tp2).traveler.current_index = t2.current_index ∨
      ((move_traveler g dt tr2 t2 tp2).traveler.current_index = t2.current_index + 1 ∧
       (move_traveler g dt tr2 t2 tp2).position.next_nav_point = none ∧
       (move_traveler g dt tr2 t2 tp2).retired = false)) := by
  have hnle : ¬ p.length ≤ t.current_index + 1 := not_le.mpr hlen
  refine ⟨?_, ?_, ?_⟩
  · intro hs
    rw [move_traveler_reserved g dt tr t tp p nxt hpath hnle hnxt,
      movePhase_run g dt tr t tp p nxt fromPt toPt hnxt hfrom hto, if_pos hs, hres]
  · intro hs
    rw [move_traveler_reserved g dt tr t tp p nxt hpath hnle hnxt,
      movePhase_run g dt tr t tp p nxt fromPt toPt hnxt hfrom hto, if_neg hs]
  · intro t2 tp2 tr2
    exact move_traveler_index g dt tr2 t2 tp2

/-- Witness instantiating C7 at a traveler standing exactly on its reserved
waypoint (remaining distance zero, so the snap-epsilon disjunct holds). -/
theorem move_traveler_tick_witness :
    move_traveler gMove 1 { translation := { x := (1 : ℝ), y := 0, z := 0 } }
      { origin := 1, destination := 2, path := some [9, 2], current_index := 0,
        speed := 1, blocked_behavior := BlockedBehavior.recompute,
        destination_behavior := DestinationBehavior.exactly,
        path_behavior := PathBehavior.precompute }
      { current_nav_point := 1, next_nav_point := some 2 } =
      { retired := false,
        transform := { translation := Vec3.toR { x := (1 : ℚ), y := 0, z := 0 } },
        traveler :=
          { origin := 1, destination := 2, path := some [9, 2], current_index := 1,
            speed := 1, blocked_behavior := BlockedBehavior.recompute,
            destination_behavior := DestinationBehavior.exactly,
            path_behavior := PathBehavior.precompute },
        position := { current_nav_point := 2, next_nav_point := none },
        graph := gMove.unoccupy 1 } := by
  have h := move_traveler_tick gMove 1
    { translation := { x := (1 : ℝ), y := 0, z := 0 } }
    { origin := 1, destination := 2, path := some [9, 2], current_index := 0,
      speed := 1, blocked_behavior := BlockedBehavior.recompute,
      destination_behavior := DestinationBehavior.exactly,
      path_behavior := PathBehavior.precompute }
    { current_nav_point := 1, next_nav_point := some 2 } [9, 2] 2
    { id := 1, location := { x := 0, y := 0, z := 0 }, speed_modifier := 1,
      connections := [2], max_occupancy := 1, current_occupancy := 1 }
    { id := 2, location := { x := 1, y := 0, z := 0 }, speed_modifier := 1,
      connections := [1], max_occupancy := 1, current_occupancy := 1 }
    rfl (by norm_num) rfl (by decide) (by decide) (by decide)
  have hs : snapCond
      (tickMovement
        { id := 1, location := { x := 0, y := 0, z := 0 }, speed_modifier := 1,
          connections := [2], max_occupancy := 1, current_occupancy := 1 }
        { id := 2, location := { x := 1, y := 0, z := 0 }, speed_modifier := 1,
          connections := [1], max_occupancy := 1, current_occupancy := 1 } 1 1)
      { translation := { x := (1 : ℝ), y := 0, z := 0 } }
      { id := 2, location := { x := 1, y := 0, z := 0 }, speed_modifier := 1,
        connections := [1], max_occupancy := 1, current_occupancy := 1 } := by
    right
    unfold Vec3R.distance_squared Vec3R.length_squared Vec3R.sub Vec3.toR
    norm_num
  exact h.1 hs

/-- C10: for a freshly pathed traveler (current_index zero, no reservation)
whose path has at least two entries, the per-tick update's reservation
attempt targets the path's second element path[1] (on failure the graph is
returned unchanged, on success the movement phase runs toward path[1]);
path[0] is never reserved or moved toward.  A traveler whose path has exactly
one element is retired on its first update with transform, traveler, position
and graph all returned untouched: no movement, no reservation, no occupancy
change. -/
theorem first_reservation_targets_second (g : NavGraph) (dt : ℚ) (tr : Transform)
    (t : AutoTraveler) (tp : TravelerPosition) (p : List ℕ) (d : ℕ) :
    (t.path = some p → t.current_index = 0 → tp.next_nav_point = none → 2 ≤ p.length →
      (((g.occupy (p.getD 1 0)).1 = true →
        move_traveler g dt tr t tp =
          movePhase (g.occupy (p.getD 1 0)).2 dt tr t
            { tp with next_nav_point := some (p.getD 1 0) } p) ∧
      ((g.occupy (p.getD 1 0)).1 = false →
        move_traveler g dt tr t tp =
          { retired := false, transform := tr, traveler := t, position := tp,
            graph := g }))) ∧
    (t.path = some [d] →
      move_traveler g dt tr t tp =
        { retired := true, transform := tr, traveler := t, position := tp, graph := g }) := by
  constructor
  · intro hpath hci hnone hlen2
    have hnle : ¬ p.length ≤ t.current_index + 1 := by
      rw [hci]
      omega
    have hred := move_traveler_reserve g dt tr t tp p hpath hnle hnone
    rw [hci] at hred
    constructor
    · intro hocc
      rw [hred, if_pos hocc]
    · intro hocc
      rw [hred, if_neg (by rw [hocc]; exact Bool.false_ne_true),
        occupy_failed_eq g (p.getD (0 + 1) 0) hocc]
  · intro hpath
    exact move_traveler_arrived g dt tr t tp [d] hpath (Nat.succ_le_succ (Nat.zero_le _))

/-- Witness instantiating C10: a successful first reservation of path[1] on a
free waypoint, a blocked first reservation on a saturated waypoint leaving
the graph unchanged, and the immediate retirement of a one-hop traveler. -/
theorem first_reservation_targets_second_witness :
    (move_traveler gMoveFree 1 { translation := { x := (0 : ℝ), y := 0, z := 0 } }
      { origin := 1, destination := 2, path := some [3, 2], current_index := 0,
        speed := 1, blocked_behavior := BlockedBehavior.recompute,
        destination_behavior := DestinationBehavior.exactly,
        path_behavior := PathBehavior.precompute }
      { current_nav_point := 1, next_nav_point := none } =
      movePhase (gMoveFree.occupy 2).2 1
        { translation := { x := (0 : ℝ), y := 0, z := 0 } }
        { origin := 1, destination := 2, path := some [3, 2], current_index := 0,
          speed := 1, blocked_behavior := BlockedBehavior.recompute,
          destination_behavior := DestinationBehavior.exactly,
          path_behavior := PathBehavior.precompute }
        { current_nav_point := 1, next_nav_point := some 2 } [3, 2]) ∧
    (move_traveler gMove 1 { translation := { x := (0 : ℝ), y := 0, z := 0 } }
      { origin := 1, destination := 2, path := some [3, 2], current_index := 0,
        speed := 1, blocked_behavior := BlockedBehavior.recompute,
        destination_behavior := DestinationBehavior.exactly,
        path_behavior := PathBehavior.precompute }
      { current_nav_point := 1, next_nav_point := none } =
      { retired := false,
        transform := { translation := { x := (0 : ℝ), y := 0, z := 0 } },
        traveler :=
          { origin := 1, destination := 2, path := some [3, 2], current_index := 0,
            speed := 1, blocked_behavior := BlockedBehavior.recompute,
            destination_behavior := DestinationBehavior.exactly,
            path_behavior := PathBehavior.precompute },
        position := { current_nav_point := 1, next_nav_point := none },
        graph := gMove }) ∧
    (move_traveler gMove 1 { translation := { x := (0 : ℝ), y := 0, z := 0 } }
      { origin := 1, destination := 2, path := some [2], current_index := 0,
        speed := 1, blocked_behavior := BlockedBehavior.recompute,
        destination_behavior := DestinationBehavior.exactly,
        path_behavior := PathBehavior.precompute }
      { current_nav_point := 1, next_nav_point := none } =
      { retired := true,
        transform := { translation := { x := (0 : ℝ), y := 0, z := 0 } },
        traveler :=
          { origin := 1, destination := 2, path := some [2], current_index := 0,
            speed := 1, blocked_behavior := BlockedBehavior.recompute,
            destination_behavior := DestinationBehavior.exactly,
            path_behavior := PathBehavior.precompute },
        position := { current_nav_point := 1, next_nav_point := none },
        graph := gMove }) := by
  refine ⟨?_, ?_, ?_⟩
  · have h := (first_reservation_targets_second gMoveFree 1
      { translation := { x := (0 : ℝ), y := 0, z := 0 } }
      { origin := 1, destination := 2, path := some [3, 2], current_index := 0,
        speed := 1, blocked_behavior := BlockedBehavior.recompute,
        destination_behavior := DestinationBehavior.exactly,
        path_behavior := PathBehavior.precompute }
      { current_nav_point := 1, next_nav_point := none } [3, 2] 0).1
      rfl rfl rfl (by norm_num)
    exact h.1 (by decide)
  · have h := (first_reservation_targets_second gMove 1
      { translation := { x := (0 : ℝ), y := 0, z := 0 } }
      { origin := 1, destination := 2, path := some [3, 2], current_index := 0,
        speed := 1, blocked_behavior := BlockedBehavior.recompute,
        destination_behavior := DestinationBehavior.exactly,
        path_behavior := PathBehavior.precompute }
      { current_nav_point := 1, next_nav_point := none } [3, 2] 0).1
      rfl rfl rfl (by norm_num)
    exact h.2 (by decide)
  · exact (first_reservation_targets_second gMove 1
      { translation := { x := (0 : ℝ), y := 0, z := 0 } }
      { origin := 1, destination := 2, path := some [2], current_index := 0,
        speed := 1, blocked_behavior := BlockedBehavior.recompute,
        destination_behavior := DestinationBehavior.exactly,
        path_behavior := PathBehavior.precompute }
      { current_nav_point := 1, next_nav_point := none } [2] 2).2 rfl

theorem insertNat_idem (l : List ℕ) (x : ℕ) : insertNat (insertNat l x) x = insertNat l x := by
  unfold insertNat
  by_cases h : x ∈ l
  · rw [if_pos h, if_pos h]
  · rw [if_neg h, if_pos (List.mem_cons_self x l)]

theorem alookup_amodify_eq {α : Type} (l : List (ℕ × α)) (k0 : ℕ) (f : α → α) (k : ℕ) :
    alookup (amodify l k0 f) k = if k = k0 then (alookup l k).map f else alookup l k := by
  by_cases h : k = k0
  · subst h
    rw [if_pos rfl, alookup_amodify_self]
  · rw [if_neg h, alookup_amodify_ne _ h]

theorem add_nav_point_eq (g : NavGraph) (pt : NavPoint) :
    g.add_nav_point pt =
      { points := ainsert (pt.connections.foldl (fun acc c => amodify acc c
          (fun b => { b with connections := insertNat b.connections pt.id })) g.points)
          pt.id pt,
        highest_id := if g.highest_id < pt.id then pt.id else g.highest_id } := rfl

theorem find_mk (pts : List (ℕ × NavPoint)) (hi : ℕ) (k : ℕ) :
    NavGraph.find? { points := pts, highest_id := hi } k = alookup pts k := rfl

theorem add_nav_point_find (g : NavGraph) (pt : NavPoint) (k : ℕ) :
    (g.add_nav_point pt).find? k =
      if k = pt.id then some pt
      else if k ∈ pt.connections then
        (g.find? k).map (fun b => { b with connections := insertNat b.connections pt.id })
      else g.find? k := by
  rw [add_nav_point_eq, find_mk]
  by_cases hk : k = pt.id
  · rw [if_pos hk]
    subst hk
    exact alookup_ainsert_self _ _ _
  · rw [if_neg hk, alookup_ainsert_ne _ hk]
    rw [alookup_foldl_amodify _ ?_ pt.connections g.points k]
    · rfl
    · intro v
      show ({ v with connections := insertNat (insertNat v.connections pt.id) pt.id }
          : NavPoint) = { v with connections := insertNat v.connections pt.id }
      rw [insertNat_idem]

theorem connect_points_noop (g : NavGraph) (a b : ℕ)
    (h : g.has_node a = false ∨ g.has_node b = false) : g.connect_points a b = g := by
  unfold NavGraph.connect_points
  rcases h with h | h
  · rw [h]
    rfl
  · rw [h, Bool.and_false]
    rfl

theorem connect_points_find (g : NavGraph) (a b k : ℕ)
    (ha : g.has_node a = true) (hb : g.has_node b = true) :
    (g.connect_points a b).find? k =
      if k = b then
        (if k = a then
          (g.find? k).map (fun p => { p with connections := insertNat p.connections b })
        else g.find? k).map (fun p => { p with connections := insertNat p.connections a })
      else if k = a then
        (g.find? k).map (fun p => { p with connections := insertNat p.connections b })
      else g.find? k := by
  unfold NavGraph.connect_points
  rw [ha, hb]
  show alookup
      (amodify
        (amodify g.points a (fun p => { p with connections := insertNat p.connections b }))
        b (fun p => { p with connections := insertNat p.connections a })) k = _
  rw [alookup_amodify_eq, alookup_amodify_eq]
  by_cases hkb : k = b
  · rw [if_pos hkb, if_pos hkb]
    rfl
  · rw [if_neg hkb, if_neg hkb]
    rfl

theorem remove_point_noop (g : NavGraph) (id : ℕ) (h : g.find? id = none) :
    g.remove_point id = g := by
  unfold NavGraph.remove_point
  rw [h]

theorem remove_point_points (g : NavGraph) (id : ℕ) (pt : NavPoint)
    (h : g.find? id = some pt) :
    (g.remove_point id).points = pt.connections.foldl
      (fun acc c => amodify acc c
        (fun b => { b with connections := b.connections.filter (fun x => x ≠ id) }))
      (g.points.filter (fun q => q.1 ≠ id)) ∧
    (g.remove_point id).highest_id = g.highest_id := by
  unfold NavGraph.remove_point
  rw [h]
  exact ⟨rfl, rfl⟩

theorem remove_point_find (g : NavGraph) (id : ℕ) (pt : NavPoint) (k : ℕ)
    (h : g.find? id = some pt) :
    (g.remove_point id).find? k =
      if k = id then none
      else if k ∈ pt.connections then
        (g.find? k).map
          (fun b => { b with connections := b.connections.filter (fun x => x ≠ id) })
      else g.find? k := by
  show alookup (g.remove_point id).points k = _
  rw [(remove_point_points g id pt h).1]
  rw [alookup_foldl_amodify _ ?_ pt.connections (g.points.filter (fun q => q.1 ≠ id)) k]
  · by_cases hk : k = id
    · subst hk
      rw [if_pos rfl, alookup_filterKey_self]
      by_cases hm : k ∈ pt.connections
      · rw [if_pos hm]
        rfl
      · rw [if_neg hm]
    · rw [if_neg hk, alookup_filterKey_ne hk]
      rfl
  · intro v
    show ({ v with connections :=
        (v.connections.filter (fun x => x ≠ id)).filter (fun x => x ≠ id) } : NavPoint)
        = { v with connections := v.connections.filter (fun x => x ≠ id) }
    rw [List.filter_filter]
    congr 1
    apply List.filter_congr
    intro x _
    exact Bool.and_self _

theorem wf_add (g : NavGraph) (pt : NavPoint)
    (hsym : symmConn g) (hclo : closedConn g)
    (hfresh : g.find? pt.id = none)
    (hconn : ∀ x ∈ pt.connections, (g.find? x).isSome = true) :
    symmConn (g.add_nav_point pt) ∧ closedConn (g.add_nav_point pt) := by
  have hnotin : ∀ z qz, g.find? z = some qz → pt.id ∉ qz.connections := by
    intro z qz hz hc
    have := hclo z qz hz pt.id hc
    rw [hfresh] at this
    cases this
  have hchar : ∀ x px, (g.add_nav_point pt).find? x = some px →
      (x = pt.id ∧ px = pt) ∨
      (x ≠ pt.id ∧ ∃ qx, g.find? x = some qx ∧
        (∀ y, y ∈ px.connections ↔ (y = pt.id ∧ x ∈ pt.connections) ∨ y ∈ qx.connections)) := by
    intro x px hx
    rw [add_nav_point_find] at hx
    by_cases hxe : x = pt.id
    · rw [if_pos hxe] at hx
      cases hx
      exact Or.inl ⟨hxe, rfl⟩
    · rw [if_neg hxe] at hx
      by_cases hxm : x ∈ pt.connections
      · rw [if_pos hxm] at hx
        cases hq : g.find? x with
        | none =>
          rw [hq] at hx
          cases hx
        | some qx =>
          rw [hq, Option.map_some'] at hx
          cases hx
          refine Or.inr ⟨hxe, qx, rfl, ?_⟩
          intro y
          show y ∈ insertNat qx.connections pt.id ↔ _
          rw [mem_insertNat]
          constructor
          · rintro (rfl | hy)
            · exact Or.inl ⟨rfl, hxm⟩
            · exact Or.inr hy
          · rintro (⟨rfl, _⟩ | hy)
            · exact Or.inl rfl
            · exact Or.inr hy
      · rw [if_neg hxm] at hx
        refine Or.inr ⟨hxe, px, hx, ?_⟩
        intro y
        constructor
        · intro hy
          exact Or.inr hy
        · rintro (⟨rfl, hc⟩ | hy)
          · exact absurd hc hxm
          · exact hy
  have hpres : ∀ z, (g.find? z).isSome = true →
      ((g.add_nav_point pt).find? z).isSome = true := by
    intro z hz
    rw [add_nav_point_find]
    by_cases h1 : z = pt.id
    · rw [if_pos h1]
      rfl
    · rw [if_neg h1]
      by_cases h2 : z ∈ pt.connections
      · rw [if_pos h2]
        cases ho : g.find? z with
        | none => rw [ho] at hz; cases hz
        | some q => rfl
      · rw [if_neg h2]
        exact hz
  constructor
  · intro x y px py hx hy
    rcases hchar x px hx with ⟨hxe, rfl⟩ | ⟨hxe, qx, hqx, hmx⟩
    · rcases hchar y py hy with ⟨hye, rfl⟩ | ⟨hye, qy, hqy, hmy⟩
      · rw [hxe, hye]
      · rw [hmy x]
        constructor
        · intro hy2
          exact Or.inl ⟨hxe, hy2⟩
        · rintro (⟨_, hy2⟩ | hy2)
          · exact hy2
          · exact absurd (hxe ▸ hy2) (hnotin y qy hqy)
    · rcases hchar y py hy with ⟨hye, rfl⟩ | ⟨hye, qy, hqy, hmy⟩
      · rw [hmx y]
        constructor
        · rintro (⟨_, hx2⟩ | hx2)
          · exact hx2
          · exact absurd (hye ▸ hx2) (hnotin x qx hqx)
        · intro hx2
          exact Or.inl ⟨hye, hx2⟩
      · rw [hmx y, hmy x]
        have hold := hsym x y qx qy hqx hqy
        constructor
        · rintro (⟨hyid, _⟩ | hy2)
          · exact absurd hyid hye
          · exact Or.inr (hold.mp hy2)
        · rintro (⟨hxid, _⟩ | hx2)
          · exact absurd hxid hxe
          · exact Or.inr (hold.mpr hx2)
  · intro x px hx z hz
    rcases hchar x px hx with ⟨hxe, rfl⟩ | ⟨hxe, qx, hqx, hmx⟩
    · exact hpres z (hconn z hz)
    · rcases (hmx z).mp hz with ⟨rfl, _⟩ | hz2
      · rw [add_nav_point_find, if_pos rfl]
        rfl
      · exact hpres z (hclo x qx hqx z hz2)

theorem wf_connect (g : NavGraph) (a b : ℕ) (hsym : symmConn g) (hclo : closedConn g) :
    symmConn (g.connect_points a b) ∧ closedConn (g.connect_points a b) := by
  by_cases ha : g.has_node a = true
  case neg =>
    rw [connect_points_noop g a b (Or.inl (Bool.eq_false_iff.mpr ha))]
    exact ⟨hsym, hclo⟩
  by_cases hb : g.has_node b = true
  case neg =>
    rw [connect_points_noop g a b (Or.inr (Bool.eq_false_iff.mpr hb))]
    exact ⟨hsym, hclo⟩
  have hchar : ∀ x px, (g.connect_points a b).find? x = some px →
      ∃ qx, g.find? x = some qx ∧
        ∀ y, y ∈ px.connections ↔
          (x = a ∧ y = b) ∨ (x = b ∧ y = a) ∨ y ∈ qx.connections := by
    intro x px hx
    rw [connect_points_find g a b x ha hb] at hx
    by_cases hxb : x = b
    · rw [if_pos hxb] at hx
      by_cases hxa : x = a
      · rw [if_pos hxa] at hx
        cases hq : g.find? x with
        | none => rw [hq] at hx; cases hx
        | some qx =>
          rw [hq, Option.map_some', Option.map_some'] at hx
          cases hx
          refine ⟨qx, rfl, ?_⟩
          intro y
          show y ∈ insertNat (insertNat qx.connections b) a ↔ _
          rw [mem_insertNat, mem_insertNat]
          constructor
          · rintro (rfl | rfl | hy)
            · exact Or.inr (Or.inl ⟨hxb, rfl⟩)
            · exact Or.inl ⟨hxa, rfl⟩
            · exact Or.inr (Or.inr hy)
          · rintro (⟨_, rfl⟩ | ⟨_, rfl⟩ | hy)
            · exact Or.inr (Or.inl rfl)
            · exact Or.inl rfl
            · exact Or.inr (Or.inr hy)
      · rw [if_neg hxa] at hx
        cases hq : g.find? x with
        | none => rw [hq] at hx; cases hx
        | some qx =>
          rw [hq, Option.map_some'] at hx
          cases hx
          refine ⟨qx, rfl, ?_⟩
          intro y
          show y ∈ insertNat qx.connections a ↔ _
          rw [mem_insertNat]
          constructor
          · rintro (rfl | hy)
            · exact Or.inr (Or.inl ⟨hxb, rfl⟩)
            · exact Or.inr (Or.inr hy)
          · rintro (⟨hxa2, _⟩ | ⟨_, rfl⟩ | hy)
            · exact absurd hxa2 hxa
            · exact Or.inl rfl
            · exact Or.inr hy
    · rw [if_neg hxb] at hx
      by_cases hxa : x = a
      · rw [if_pos hxa] at hx
        cases hq : g.find? x with
        | none => rw [hq] at hx; cases hx
        | some qx =>
          rw [hq, Option.map_some'] at hx
          cases hx
          refine ⟨qx, rfl, ?_⟩
          intro y
          show y ∈ insertNat qx.connections b ↔ _
          rw [mem_insertNat]
          constructor
          · rintro (rfl | hy)
            · exact Or.inl ⟨hxa, rfl⟩
            · exact Or.inr (Or.inr hy)
          · rintro (⟨_, rfl⟩ | ⟨hxb2, _⟩ | hy)
            · exact Or.inl rfl
            · exact absurd hxb2 hxb
            · exact Or.inr hy
      · rw [if_neg hxa] at hx
        refine ⟨px, hx, ?_⟩
        intro y
        constructor
        · intro hy
          exact Or.inr (Or.inr hy)
        · rintro (⟨hxa2, _⟩ | ⟨hxb2, _⟩ | hy)
          · exact absurd hxa2 hxa
          · exact absurd hxb2 hxb
          · exact hy
  have hpres : ∀ z, (g.find? z).isSome = true →
      ((g.connect_points a b).find? z).isSome = true := by
    intro z hz
    rw [connect_points_find g a b z ha hb]
    cases ho : g.find? z with
    | none => rw [ho] at hz; cases hz
    | some q =>
      by_cases h1 : z = b
      · rw [if_pos h1]
        by_cases h2 : z = a
        · rw [if_pos h2]
          rfl
        · rw [if_neg h2]
          rfl
      · rw [if_neg h1]
        by_cases h2 : z = a
        · rw [if_pos h2]
          rfl
        · rw [if_neg h2]
          rfl
  constructor
  · intro x y px py hx hy
    obtain ⟨qx, hqx, hmx⟩ := hchar x px hx
    obtain ⟨qy, hqy, hmy⟩ := hchar y py hy
    rw [hmx y, hmy x]
    have hold := hsym x y qx qy hqx hqy
    constructor
    · rintro (⟨h1, h2⟩ | ⟨h1, h2⟩ | hy2)
      · exact Or.inr (Or.inl ⟨h2, h1⟩)
      · exact Or.inl ⟨h2, h1⟩
      · exact Or.inr (Or.inr (hold.mp hy2))
    · rintro (⟨h1, h2⟩ | ⟨h1, h2⟩ | hx2)
      · exact Or.inr (Or.inl ⟨h2, h1⟩)
      · exact Or.inl ⟨h2, h1⟩
      · exact Or.inr (Or.inr (hold.mpr hx2))
  · intro x px hx z hz
    obtain ⟨qx, hqx, hmx⟩ := hchar x px hx
    rcases (hmx z).mp hz with ⟨_, rfl⟩ | ⟨_, rfl⟩ | hz2
    · exact hpres z hb
    · exact hpres z ha
    · exact hpres z (hclo x qx hqx z hz2)

theorem wf_remove (g : NavGraph) (id : ℕ) (hsym : symmConn g) (hclo : closedConn g) :
    symmConn (g.remove_point id) ∧ closedConn (g.remove_point id) := by
  cases hf : g.find? id with
  | none =>
    rw [remove_point_noop g id hf]
    exact ⟨hsym, hclo⟩
  | some pt =>
    have hchar : ∀ x px, (g.remove_point id).find? x = some px →
        x ≠ id ∧ ∃ qx, g.find? x = some qx ∧
          ∀ y, y ∈ px.connections ↔ (y ∈ qx.connections ∧ y ≠ id) := by
      intro x px hx
      rw [remove_point_find g id pt x hf] at hx
      by_cases hxi : x = id
      · rw [if_pos hxi] at hx
        cases hx
      · rw [if_neg hxi] at hx
        refine ⟨hxi, ?_⟩
        by_cases hxm : x ∈ pt.connections
        · rw [if_pos hxm] at hx
          cases hq : g.find? x with
          | none => rw [hq] at hx; cases hx
          | some qx =>
            rw [hq, Option.map_some'] at hx
            cases hx
            refine ⟨qx, rfl, ?_⟩
            intro y
            show y ∈ qx.connections.filter (fun z => z ≠ id) ↔ _
            rw [List.mem_filter]
            constructor
            · rintro ⟨hy, hd⟩
              exact ⟨hy, of_decide_eq_true hd⟩
            · rintro ⟨hy, hd⟩
              exact ⟨hy, decide_eq_true hd⟩
        · rw [if_neg hxm] at hx
          refine ⟨px, hx, ?_⟩
          intro y
          constructor
          · intro hy
            refine ⟨hy, ?_⟩
            intro hyid
            subst hyid
            have := (hsym x y px pt hx hf).mp hy
            exact hxm this
          · rintro ⟨hy, _⟩
            exact hy
    have hpres : ∀ z, z ≠ id → (g.find? z).isSome = true →
        ((g.remove_point id).find? z).isSome = true := by
      intro z hzi hz
      rw [remove_point_find g id pt z hf, if_neg hzi]
      cases ho : g.find? z with
      | none => rw [ho] at hz; cases hz
      | some q =>
        by_cases h2 : z ∈ pt.connections
        · rw [if_pos h2]
          rfl
        · rw [if_neg h2]
          rfl
    constructor
    · intro x y px py hx hy
      obtain ⟨hxi, qx, hqx, hmx⟩ := hchar x px hx
      obtain ⟨hyi, qy, hqy, hmy⟩ := hchar y py hy
      rw [hmx y, hmy x]
      have hold := hsym x y qx qy hqx hqy
      constructor
      · rintro ⟨hy2, _⟩
        exact ⟨hold.mp hy2, hxi⟩
      · rintro ⟨hx2, _⟩
        exact ⟨hold.mpr hx2, hyi⟩
    · intro x px hx z hz
      obtain ⟨hxi, qx, hqx, hmx⟩ := hchar x px hx
      obtain ⟨hz2, hzi⟩ := (hmx z).mp hz
      exact hpres z hzi (hclo x qx hqx z hz2)

theorem wf_applyOp (g : NavGraph) (op : GraphOp)
    (hsym : symmConn g) (hclo : closedConn g) (hop : goodOp g op) :
    symmConn (applyOp g op) ∧ closedConn (applyOp g op) := by
  cases op with
  | addPoint pt => exact wf_add g pt hsym hclo hop.1 hop.2
  | connect a b => exact wf_connect g a b hsym hclo
  | removeAt id => exact wf_remove g id hsym hclo

theorem wf_applyOps (ops : List GraphOp) : ∀ (g : NavGraph),
    symmConn g → closedConn g → goodSeq g ops →
    symmConn (applyOps g ops) ∧ closedConn (applyOps g ops) := by
  induction ops with
  | nil => exact fun g hs hc _ => ⟨hs, hc⟩
  | cons op ops ih =>
    intro g hs hc hgood
    obtain ⟨hop, hrest⟩ := hgood
    have h1 := wf_applyOp g op hs hc hop
    exact ih (applyOp g op) h1.1 h1.2 hrest

/-- C3 counterexample: build waypoints 1 and 2, connect them, then re-add an
id already in the graph (a fresh NavPoint with id 1 and the constructor's
empty connection set).  The insertion replaces waypoint 1 wholesale while 2
still lists 1 as a neighbor: both ids are in the graph yet 1 is in 2's
connections and 2 is not in 1's, so connectivity symmetry does not survive
every sequence of mutating operations. -/
theorem add_readd_breaks_symmetry :
    gBroken.has_node 1 = true ∧ gBroken.has_node 2 = true ∧ ¬ symmConn gBroken := by
  refine ⟨by decide, by decide, ?_⟩
  intro h
  have h2 := (h 2 1
    { id := 2, location := { x := 7000, y := 0, z := 0 }, speed_modifier := 1,
      connections := [1], max_occupancy := 1, current_occupancy := 0 }
    { id := 1, location := { x := 0, y := 0, z := 0 }, speed_modifier := 1,
      connections := [], max_occupancy := 1, current_occupancy := 0 }
    (by decide) (by decide)).mp (by decide)
  cases h2

/-- C3 amended: connectivity symmetry is an invariant maintained by every
sequence of add_waypoint, connect and remove operations, provided every added
waypoint carries an id not already present and its pre-populated connection
set names only waypoints already present (the repair add_nav_point performs
covers exactly that direction).  Re-adding an id already in the graph, or
declaring a connection to an absent id, can break the invariant, as the
counterexample shows.  Symmetry is proved together with closedness (no
dangling connection ids), which the induction needs. -/
theorem symm_maintained_good_ops (g : NavGraph) (ops : List GraphOp)
    (hsym : symmConn g) (hclo : closedConn g) (hops : goodSeq g ops) :
    symmConn (applyOps g ops) := by
  exact (wf_applyOps ops g hsym hclo hops).1

/-- Witness instantiating the amended C3 on a concrete good sequence: add two
fresh waypoints, connect them, and remove one again, starting from the empty
graph. -/
theorem symm_maintained_good_ops_witness :
    symmConn (applyOps NavGraph.new
      [GraphOp.addPoint (NavPoint.new 1 { x := 0, y := 0, z := 0 } 1 1),
       GraphOp.addPoint (NavPoint.new 2 { x := 1, y := 0, z := 0 } 1 1),
       GraphOp.connect 1 2,
       GraphOp.removeAt 1]) := by
  apply symm_maintained_good_ops
  · intro a b pa pb hpa hpb
    cases hpa
  · intro a pa hpa
    cases hpa
  · refine ⟨⟨by decide, ?_⟩, ⟨by decide, ?_⟩, trivial, trivial, trivial⟩
    · intro x hx
      cases hx
    · intro x hx
      cases hx

theorem chainCost_mono (g : NavGraph) (c : ℕ → ℕ) :
    ∀ {i j : ℕ}, i ≤ j → chainCost g c i ≤ chainCost g c j := by
  intro i j hij
  induction j with
  | zero =>
    cases Nat.le_zero.mp hij
    exact le_refl _
  | succ j ih =>
    rcases Nat.lt_or_ge i (j + 1) with h | h
    · have := ih (Nat.lt_succ_iff.mp h)
      calc chainCost g c i ≤ chainCost g c j := this
        _ ≤ chainCost g c j + g.h_func (c j) (c (j + 1)) := Nat.le_add_right _ _
    · have : i = j + 1 := Nat.le_antisymm hij h
      rw [this]

theorem mem_keys_of_alookup_some {α : Type} :
    ∀ {l : List (ℕ × α)} {k : ℕ} {v : α}, alookup l k = some v → k ∈ l.map Prod.fst := by
  intro l
  induction l with
  | nil => intro k v h; cases h
  | cons q rest ih =>
    intro k v h
    rw [alookup_cons] at h
    by_cases hq : q.1 = k
    · rw [List.map_cons]
      rw [hq]
      exact List.mem_cons_self _ _
    · rw [if_neg hq] at h
      exact List.mem_cons_of_mem _ (ih h)

theorem nodup_subset_length {l l2 : List ℕ} (h : l.Nodup) (hs : ∀ x ∈ l, x ∈ l2) :
    l.length ≤ l2.length := by
  have h1 : l.toFinset.card = l.length := List.toFinset_card_of_nodup h
  have h2 : l.toFinset ⊆ l2.toFinset := by
    intro x hx
    rw [List.mem_toFinset] at hx ⊢
    exact hs x hx
  calc l.length = l.toFinset.card := h1.symm
    _ ≤ l2.toFinset.card := Finset.card_le_card h2
    _ ≤ l2.length := List.toFinset_card_le l2

theorem filter_ne_singleton (k : ℕ) : List.filter (fun x => x ≠ k) [k] = [] := by
  simp

theorem chain_recon (g : NavGraph) (c : ℕ → ℕ) (N : ℕ) (cf : List (ℕ × ℕ))
    (hN : 2 ≤ N)
    (hinj : ∀ i j, i < N → j < N → c i = c j → i = j)
    (hmem : ∀ j, 1 ≤ j → j ≤ N - 1 → alookup cf (c j) = some (c (j - 1))) :
    ∀ j, j ≤ N - 1 → reconstruct cf (c 0) (j + 1) (c j) =
      some ((List.range' 1 j).map c) := by
  intro j
  induction j with
  | zero =>
    intro _
    exact reconstruct_start cf (c 0) 0
  | succ j ih =>
    intro hj
    have hjN : j + 1 < N := by omega
    have hne : c (j + 1) ≠ c 0 := by
      intro hc
      have := hinj (j + 1) 0 hjN (by omega) hc
      omega
    have hlook : alookup cf (c (j + 1)) = some (c j) := by
      have := hmem (j + 1) (by omega) hj
      simpa using this
    rw [reconstruct_step (j + 1) hne hlook, ih (by omega)]
    have : List.range' 1 (j + 1) = List.range' 1 j ++ [1 + j] := by
      have h2 := @List.range'_concat 1 1 j
      simpa using h2
    rw [this, List.map_append]
    rw [Nat.add_comm 1 j]
    rfl

theorem alookupD_some {l : List (ℕ × ℕ)} {k v : ℕ} (d : ℕ) (h : alookup l k = some v) :
    alookupD l k d = v := by
  unfold alookupD
  rw [h]

theorem alookupD_none {l : List (ℕ × ℕ)} {k : ℕ} (d : ℕ) (h : alookup l k = none) :
    alookupD l k d = d := by
  unfold alookupD
  rw [h]

theorem chain_stepNeighbor_fwd (g : NavGraph) (c : ℕ → ℕ) (N i : ℕ) (st : AStarState)
    (pti1 : NavPoint) (hfind : g.find? (c (i + 1)) = some pti1)
    (hcan : pti1.can_occupy = true)
    (hgi : alookup st.g_score (c i) = some (chainCost g c i))
    (hgi1 : alookup st.g_score (c (i + 1)) = none)
    (hsid : c (i + 1) ∉ st.search_ids)
    (hfwd : chainCost g c (N - 1) < 4294967295)
    (hle : i + 1 ≤ N - 1) :
    stepNeighbor g (c (N - 1)) (c i) st (c (i + 1)) =
      { st with
        came_from := ainsert st.came_from (c (i + 1)) (c i),
        g_score := ainsert st.g_score (c (i + 1)) (chainCost g c (i + 1)),
        f_score := ainsert st.f_score (c (i + 1))
          ((chainCost g c (i + 1) + g.h_func (c (i + 1)) (c (N - 1))) % 4294967296),
        search_ids := c (i + 1) :: st.search_ids,
        open_set := st.open_set ++
          [{ id := c (i + 1),
             f := (chainCost g c (i + 1) + g.h_func (c (i + 1)) (c (N - 1)))
               % 4294967296 }] } := by
  have hGlt : chainCost g c (i + 1) < 4294967295 :=
    lt_of_le_of_lt (chainCost_mono g c hle) hfwd
  have hsum : chainCost g c i + g.h_func (c i) (c (i + 1)) = chainCost g c (i + 1) := rfl
  have hmod : (chainCost g c i + g.h_func (c i) (c (i + 1))) % 4294967296 =
      chainCost g c (i + 1) := by
    rw [hsum]
    exact Nat.mod_eq_of_lt (lt_trans hGlt (by norm_num))
  rw [stepNeighbor_some g (c (N - 1)) (c i) st (c (i + 1)) pti1 hfind, hcan, if_pos rfl]
  rw [alookupD_some 0 hgi, alookupD_none 4294967295 hgi1, hmod]
  rw [if_pos hGlt, if_neg hsid]

theorem chain_stepNeighbor_back (g : NavGraph) (c : ℕ → ℕ) (N i : ℕ) (st : AStarState)
    (ptb : NavPoint) (hfind : g.find? (c (i - 1)) = some ptb)
    (hcan : ptb.can_occupy = true)
    (hgi : alookup st.g_score (c i) = some (chainCost g c i))
    (hgprev : alookup st.g_score (c (i - 1)) = some (chainCost g c (i - 1)))
    (hbk : chainCost g c i + g.h_func (c i) (c (i - 1)) < 4294967296) :
    stepNeighbor g (c (N - 1)) (c i) st (c (i - 1)) = st := by
  rw [stepNeighbor_some g (c (N - 1)) (c i) st (c (i - 1)) ptb hfind, hcan, if_pos rfl]
  rw [alookupD_some 0 hgi, alookupD_some 4294967295 hgprev]
  rw [Nat.mod_eq_of_lt hbk]
  rw [if_neg (not_lt.mpr ?_)]
  calc chainCost g c (i - 1) ≤ chainCost g c i := chainCost_mono g c (Nat.sub_le i 1)
    _ ≤ chainCost g c i + g.h_func (c i) (c (i - 1)) := Nat.le_add_right _ _

theorem chain_step (g : NavGraph) (c : ℕ → ℕ) (N : ℕ)
    (hinj : ∀ i j, i < N → j < N → c i = c j → i = j)
    (hnode : ∀ i, i < N → ∃ pt, g.find? (c i) = some pt ∧ pt.can_occupy = true ∧
      chainConns c N i pt)
    (hfwd : chainCost g c (N - 1) < 4294967295)
    (hbk : ∀ i, i + 1 < N →
      chainCost g c (i + 1) + g.h_func (c (i + 1)) (c i) < 4294967296)
    (i : ℕ) (hi : i + 1 < N) (st : AStarState) (inv : ChainInv g c i st) (fuel : ℕ) :
    ∃ st2, astarLoop g (c 0) (c (N - 1)) (fuel + 1) st =
        astarLoop g (c 0) (c (N - 1)) fuel st2 ∧ ChainInv g c (i + 1) st2 := by
  obtain ⟨F, hopen⟩ := inv.open_eq
  obtain ⟨pti, hfindi, hcani, hconnsi⟩ := hnode i (by omega)
  obtain ⟨pt1, hfind1, hcan1, hconns1⟩ := hnode (i + 1) hi
  have hpop : popMin st.open_set = some (⟨c i, F⟩, []) := by
    rw [hopen]
    rfl
  have hbne : (⟨c i, F⟩ : PathNode).id ≠ c (N - 1) := by
    show c i ≠ c (N - 1)
    intro hc
    have := hinj i (N - 1) (by omega) (by omega) hc
    omega
  have hgi : alookup st.g_score (c i) = some (chainCost g c i) := inv.gs_mem i (le_refl i)
  have hgi1 : alookup st.g_score (c (i + 1)) = none := by
    apply inv.gs_dom
    intro j hj hc
    have := hinj (i + 1) j hi (by omega) hc
    omega
  have hcfnone : alookup st.came_from (c (i + 1)) = none := by
    apply inv.cf_dom
    intro j h1 h2 hc
    have := hinj (i + 1) j hi (by omega) hc
    omega
  refine ⟨{ search_ids := [c (i + 1)],
            open_set := [⟨c (i + 1),
              (chainCost g c (i + 1) + g.h_func (c (i + 1)) (c (N - 1))) % 4294967296⟩],
            came_from := ainsert st.came_from (c (i + 1)) (c i),
            g_score := ainsert st.g_score (c (i + 1)) (chainCost g c (i + 1)),
            f_score := ainsert st.f_score (c (i + 1))
              ((chainCost g c (i + 1) + g.h_func (c (i + 1)) (c (N - 1)))
                % 4294967296) }, ?_, ?_⟩
  · rw [astarLoop_expand g (c 0) (c (N - 1)) fuel st ⟨c i, F⟩ [] pti hpop hbne hfindi]
    show astarLoop g (c 0) (c (N - 1)) fuel
        (expand g (c (N - 1)) (c i)
          { st with open_set := [],
                    search_ids := List.filter (fun x => x ≠ c i) st.search_ids }
          pti.connections) = _
    have hst1 : ({ st with
          open_set := ([] : List PathNode),
          search_ids := List.filter (fun x => x ≠ c i) st.search_ids } : AStarState) =
        { search_ids := [], open_set := [], came_from := st.came_from,
          g_score := st.g_score, f_score := st.f_score } := by
      rw [inv.sids, filter_ne_singleton]
    rw [hst1]
    have hfwdstep : ∀ (stx : AStarState),
        alookup stx.g_score (c i) = some (chainCost g c i) →
        alookup stx.g_score (c (i + 1)) = none →
        c (i + 1) ∉ stx.search_ids →
        stepNeighbor g (c (N - 1)) (c i) stx (c (i + 1)) =
          { stx with
            came_from := ainsert stx.came_from (c (i + 1)) (c i),
            g_score := ainsert stx.g_score (c (i + 1)) (chainCost g c (i + 1)),
            f_score := ainsert stx.f_score (c (i + 1))
              ((chainCost g c (i + 1) + g.h_func (c (i + 1)) (c (N - 1))) % 4294967296),
            search_ids := c (i + 1) :: stx.search_ids,
            open_set := stx.open_set ++
              [{ id := c (i + 1),
                 f := (chainCost g c (i + 1) + g.h_func (c (i + 1)) (c (N - 1)))
                   % 4294967296 }] } := by
      intro stx h1 h2 h3
      exact chain_stepNeighbor_fwd g c N i stx pt1 hfind1 hcan1 h1 h2 h3 hfwd (by omega)
    by_cases hi0 : i = 0
    · have hconnsF : pti.connections = [c (i + 1)] := by
        unfold chainConns at hconnsi
        rw [if_pos hi0] at hconnsi
        rw [hi0]
        exact hconnsi
      rw [hconnsF]
      show astarLoop g (c 0) (c (N - 1)) fuel
        (stepNeighbor g (c (N - 1)) (c i)
          { search_ids := [], open_set := [], came_from := st.came_from,
            g_score := st.g_score, f_score := st.f_score } (c (i + 1))) = _
      rw [hfwdstep
        { search_ids := [], open_set := [], came_from := st.came_from,
          g_score := st.g_score, f_score := st.f_score }
        hgi hgi1 (List.not_mem_nil _)]
      exact rfl
    · have hiNe : i ≠ N - 1 := by omega
      have hi1 : 1 ≤ i := by omega
      obtain ⟨ptb, hfindb, hcanb, _⟩ := hnode (i - 1) (by omega)
      have hgb : alookup st.g_score (c (i - 1)) = some (chainCost g c (i - 1)) :=
        inv.gs_mem (i - 1) (by omega)
      have hbki : chainCost g c i + g.h_func (c i) (c (i - 1)) < 4294967296 := by
        have h2 := hbk (i - 1) (by omega)
        rw [Nat.sub_add_cancel hi1] at h2
        exact h2
      have hbackstep : ∀ (stx : AStarState),
          alookup stx.g_score (c i) = some (chainCost g c i) →
          alookup stx.g_score (c (i - 1)) = some (chainCost g c (i - 1)) →
          stepNeighbor g (c (N - 1)) (c i) stx (c (i - 1)) = stx := by
        intro stx h1 h2
        exact chain_stepNeighbor_back g c N i stx ptb hfindb hcanb h1 h2 hbki
      have hne_prev : c (i - 1) ≠ c (i + 1) := by
        intro hc
        have := hinj (i - 1) (i + 1) (by omega) hi hc
        omega
      have hne_cur : c i ≠ c (i + 1) := by
        intro hc
        have := hinj i (i + 1) (by omega) hi hc
        omega
      unfold chainConns at hconnsi
      rw [if_neg hi0, if_neg hiNe] at hconnsi
      have hconnsi2 : pti.connections = [c (i - 1), c (i + 1)] ∨
          pti.connections = [c (i + 1), c (i - 1)] := hconnsi
      rcases hconnsi2 with hcc | hcc
      · rw [hcc]
        show astarLoop g (c 0) (c (N - 1)) fuel
          (stepNeighbor g (c (N - 1)) (c i)
            (stepNeighbor g (c (N - 1)) (c i)
              { search_ids := [], open_set := [], came_from := st.came_from,
                g_score := st.g_score, f_score := st.f_score } (c (i - 1)))
            (c (i + 1))) = _
        rw [hbackstep
          { search_ids := [], open_set := [], came_from := st.came_from,
            g_score := st.g_score, f_score := st.f_score }
          hgi hgb]
        rw [hfwdstep
          { search_ids := [], open_set := [], came_from := st.came_from,
            g_score := st.g_score, f_score := st.f_score }
          hgi hgi1 (List.not_mem_nil _)]
        exact rfl
      · rw [hcc]
        show astarLoop g (c 0) (c (N - 1)) fuel
          (stepNeighbor g (c (N - 1)) (c i)
            (stepNeighbor g (c (N - 1)) (c i)
              { search_ids := [], open_set := [], came_from := st.came_from,
                g_score := st.g_score, f_score := st.f_score } (c (i + 1)))
            (c (i - 1))) = _
        rw [hfwdstep
          { search_ids := [], open_set := [], came_from := st.came_from,
            g_score := st.g_score, f_score := st.f_score }
          hgi hgi1 (List.not_mem_nil _)]
        show astarLoop g (c 0) (c (N - 1)) fuel
          (stepNeighbor g (c (N - 1)) (c i)
            { search_ids := [c (i + 1)],
              open_set := [⟨c (i + 1),
                (chainCost g c (i + 1) + g.h_func (c (i + 1)) (c (N - 1))) % 4294967296⟩],
              came_from := ainsert st.came_from (c (i + 1)) (c i),
              g_score := ainsert st.g_score (c (i + 1)) (chainCost g c (i + 1)),
              f_score := ainsert st.f_score (c (i + 1))
                ((chainCost g c (i + 1) + g.h_func (c (i + 1)) (c (N - 1))) % 4294967296) }
            (c (i - 1))) = _
        rw [hbackstep
          { search_ids := [c (i + 1)],
            open_set := [⟨c (i + 1),
              (chainCost g c (i + 1) + g.h_func (c (i + 1)) (c (N - 1))) % 4294967296⟩],
            came_from := ainsert st.came_from (c (i + 1)) (c i),
            g_score := ainsert st.g_score (c (i + 1)) (chainCost g c (i + 1)),
            f_score := ainsert st.f_score (c (i + 1))
              ((chainCost g c (i + 1) + g.h_func (c (i + 1)) (c (N - 1))) % 4294967296) }
          ?_ ?_]
        · show alookup (ainsert st.g_score (c (i + 1)) (chainCost g c (i + 1))) (c i)
              = some (chainCost g c i)
          rw [alookup_ainsert_ne _ hne_cur]
          exact hgi
        · show alookup (ainsert st.g_score (c (i + 1)) (chainCost g c (i + 1))) (c (i - 1))
              = some (chainCost g c (i - 1))
          rw [alookup_ainsert_ne _ hne_prev]
          exact hgb
  · constructor
    · exact ⟨(chainCost g c (i + 1) + g.h_func (c (i + 1)) (c (N - 1))) % 4294967296, rfl⟩
    · rfl
    · intro j hj
      by_cases hje : j = i + 1
      · subst hje
        show alookup (ainsert st.g_score (c (i + 1)) (chainCost g c (i + 1)))
          (c (i + 1)) = some (chainCost g c (i + 1))
        rw [alookup_ainsert_self]
      · have hji : j ≤ i := by omega
        have hne : c j ≠ c (i + 1) := by
          intro hc
          have := hinj j (i + 1) (by omega) hi hc
          omega
        show alookup (ainsert st.g_score (c (i + 1)) (chainCost g c (i + 1))) (c j) = _
        rw [alookup_ainsert_ne _ hne]
        exact inv.gs_mem j hji
    · intro x hx
      have hne : x ≠ c (i + 1) := hx (i + 1) (le_refl _)
      show alookup (ainsert st.g_score (c (i + 1)) (chainCost g c (i + 1))) x = none
      rw [alookup_ainsert_ne _ hne]
      exact inv.gs_dom x (fun j hj => hx j (by omega))
    · intro j h1 hj
      by_cases hje : j = i + 1
      · subst hje
        show alookup (ainsert st.came_from (c (i + 1)) (c i))
          (c (i + 1)) = some (c (i + 1 - 1))
        rw [alookup_ainsert_self]
        rfl
      · have hji : j ≤ i := by omega
        have hne : c j ≠ c (i + 1) := by
          intro hc
          have := hinj j (i + 1) (by omega) hi hc
          omega
        show alookup (ainsert st.came_from (c (i + 1)) (c i)) (c j) = _
        rw [alookup_ainsert_ne _ hne]
        exact inv.cf_mem j h1 hji
    · intro x hx
      have hne : x ≠ c (i + 1) := hx (i + 1) (by omega) (le_refl _)
      show alookup (ainsert st.came_from (c (i + 1)) (c i)) x = none
      rw [alookup_ainsert_ne _ hne]
      exact inv.cf_dom x (fun j h1 hj => hx j h1 (by omega))
    · show (ainsert st.came_from (c (i + 1)) (c i)).length = i + 1
      rw [ainsert_length_of_absent _ hcfnone, inv.cf_len]

theorem chain_finish (g : NavGraph) (c : ℕ → ℕ) (N : ℕ)
    (hN : 2 ≤ N)
    (hinj : ∀ i j, i < N → j < N → c i = c j → i = j)
    (st : AStarState) (fuel : ℕ) (inv : ChainInv g c (N - 1) st) :
    astarLoop g (c 0) (c (N - 1)) (fuel + 1) st =
      some ((List.range' 1 (N - 1)).map c) := by
  obtain ⟨F, hopen⟩ := inv.open_eq
  have hpop : popMin st.open_set = some (⟨c (N - 1), F⟩, []) := by
    rw [hopen]
    rfl
  rw [astarLoop_goal g (c 0) (c (N - 1)) fuel st ⟨c (N - 1), F⟩ [] hpop rfl]
  show reconstruct st.came_from (c 0) (st.came_from.length + 1) (c (N - 1)) = _
  rw [inv.cf_len]
  exact chain_recon g c N st.came_from hN hinj
    (fun j h1 h2 => inv.cf_mem j h1 h2) (N - 1) (le_refl _)

theorem chain_run (g : NavGraph) (c : ℕ → ℕ) (N : ℕ)
    (hN : 2 ≤ N)
    (hinj : ∀ i j, i < N → j < N → c i = c j → i = j)
    (hnode : ∀ i, i < N → ∃ pt, g.find? (c i) = some pt ∧ pt.can_occupy = true ∧
      chainConns c N i pt)
    (hfwd : chainCost g c (N - 1) < 4294967295)
    (hbk : ∀ i, i + 1 < N →
      chainCost g c (i + 1) + g.h_func (c (i + 1)) (c i) < 4294967296) :
    ∀ (k i : ℕ) (st : AStarState), i < N → N - 1 - i ≤ k → ChainInv g c i st →
      astarLoop g (c 0) (c (N - 1)) (k + 1) st =
        some ((List.range' 1 (N - 1)).map c) := by
  intro k
  induction k with
  | zero =>
    intro i st hi hk inv
    have hieq : i = N - 1 := by omega
    subst hieq
    exact chain_finish g c N hN hinj st 0 inv
  | succ k ih =>
    intro i st hi hk inv
    by_cases hiN : i = N - 1
    · subst hiN
      exact chain_finish g c N hN hinj st (k + 1) inv
    · have hi1 : i + 1 < N := by omega
      obtain ⟨st2, heq, inv2⟩ := chain_step g c N hinj hnode hfwd hbk i hi1 st inv (k + 1)
      rw [heq]
      exact ih (i + 1) st2 hi1 (by omega) inv2

/-- C1 amended: for every straight chain of N waypoints (N at least 2) with
pairwise distinct ids, each waypoint connected exactly to its chain
neighbors and with occupancy headroom, find_path from the first to the last
returns exactly the N-1 remaining ids in chain order, PROVIDED the hop costs
do not saturate the u32 cost arithmetic: the accumulated forward cost along
the chain stays below u32::MAX and each accumulated cost plus a backward hop
cost stays below 2^32.  Without the proviso the claim fails: a single hop of
7000 units already saturates the cast and yields no path (see the
counterexample). -/
theorem chain_find_path (g : NavGraph) (c : ℕ → ℕ) (N : ℕ)
    (hN : 2 ≤ N)
    (hinj : ∀ i j, i < N → j < N → c i = c j → i = j)
    (hnode : ∀ i, i < N → ∃ pt, g.find? (c i) = some pt ∧ pt.can_occupy = true ∧
      chainConns c N i pt)
    (hfwd : chainCost g c (N - 1) < 4294967295)
    (hbk : ∀ i, i + 1 < N →
      chainCost g c (i + 1) + g.h_func (c (i + 1)) (c i) < 4294967296) :
    g.find_path (c 0) (c (N - 1)) = some ((List.range' 1 (N - 1)).map c) := by
  obtain ⟨pt0, hf0, _, _⟩ := hnode 0 (by omega)
  obtain ⟨ptN, hfN, _, _⟩ := hnode (N - 1) (by omega)
  rw [find_path_start_present g (c 0) (c (N - 1)) pt0 ptN hf0 hfN]
  have hlen : N ≤ g.points.length := by
    have hsub : ∀ x ∈ (List.range N).map c, x ∈ g.points.map Prod.fst := by
      intro x hx
      rw [List.mem_map] at hx
      obtain ⟨j, hj, rfl⟩ := hx
      rw [List.mem_range] at hj
      obtain ⟨ptj, hfj, _, _⟩ := hnode j hj
      exact mem_keys_of_alookup_some hfj
    have hnd : ((List.range N).map c).Nodup := by
      apply List.Nodup.map_on
      · intro x hx y hy hc
        rw [List.mem_range] at hx hy
        exact hinj x y hx hy hc
      · exact List.nodup_range N
    have := nodup_subset_length hnd hsub
    rw [List.length_map, List.length_range, List.length_map] at this
    exact this
  have hfuel : astarFuel g = (astarFuel g - 1) + 1 := by
    have := astarFuel_pos g
    omega
  have hfuelbig : N - 1 - 0 ≤ astarFuel g - 1 := by
    have : N + 1 ≤ astarFuel g := by
      unfold astarFuel
      calc N + 1 ≤ g.points.length + 1 := by omega
        _ ≤ (g.points.length + 1) * 4294967296 := Nat.le_mul_of_pos_right _ (by norm_num)
    omega
  rw [hfuel]
  apply chain_run g c N hN hinj hnode hfwd hbk (astarFuel g - 1) 0 _ (by omega) hfuelbig
  constructor
  · exact ⟨g.h_func (c 0) (c (N - 1)), rfl⟩
  · rfl
  · intro j hj
    have hj0 : j = 0 := Nat.le_zero.mp hj
    subst hj0
    show alookup [(c 0, 0)] (c 0) = some (chainCost g c 0)
    rw [alookup_cons, if_pos rfl]
    rfl
  · intro x hx
    have hne : c 0 ≠ x := fun hc => hx 0 (le_refl _) hc.symm
    show alookup [(c 0, 0)] x = none
    rw [alookup_cons, if_neg hne]
    rfl
  · intro j h1 h2
    omega
  · intro x _
    rfl
  · rfl

theorem chain3_h12 : chain3.h_func 1 2 = 100 := by
  apply h_func_eval chain3 1 2
    { id := 1, location := { x := 0, y := 0, z := 0 }, speed_modifier := 1,
      connections := [2], max_occupancy := 1, current_occupancy := 0 }
    { id := 2, location := { x := 0, y := 1, z := 0 }, speed_modifier := 1,
      connections := [3, 1], max_occupancy := 1, current_occupancy := 0 }
    100 (by decide) (by decide)
  · unfold Vec3.distance_squared
    norm_num
  · norm_num

theorem chain3_h23 : chain3.h_func 2 3 = 100 := by
  apply h_func_eval chain3 2 3
    { id := 2, location := { x := 0, y := 1, z := 0 }, speed_modifier := 1,
      connections := [3, 1], max_occupancy := 1, current_occupancy := 0 }
    { id := 3, location := { x := 0, y := 2, z := 0 }, speed_modifier := 1,
      connections := [2], max_occupancy := 1, current_occupancy := 0 }
    100 (by decide) (by decide)
  · unfold Vec3.distance_squared
    norm_num
  · norm_num

theorem chain3_h21 : chain3.h_func 2 1 = 100 := by
  apply h_func_eval chain3 2 1
    { id := 2, location := { x := 0, y := 1, z := 0 }, speed_modifier := 1,
      connections := [3, 1], max_occupancy := 1, current_occupancy := 0 }
    { id := 1, location := { x := 0, y := 0, z := 0 }, speed_modifier := 1,
      connections := [2], max_occupancy := 1, current_occupancy := 0 }
    100 (by decide) (by decide)
  · unfold Vec3.distance_squared
    norm_num
  · norm_num

theorem chain3_h32 : chain3.h_func 3 2 = 100 := by
  apply h_func_eval chain3 3 2
    { id := 3, location := { x := 0, y := 2, z := 0 }, speed_modifier := 1,
      connections := [2], max_occupancy := 1, current_occupancy := 0 }
    { id := 2, location := { x := 0, y := 1, z := 0 }, speed_modifier := 1,
      connections := [3, 1], max_occupancy := 1, current_occupancy := 0 }
    100 (by decide) (by decide)
  · unfold Vec3.distance_squared
    norm_num
  · norm_num

theorem chain3_cost1 : chainCost chain3 (fun i => i + 1) 1 = 100 := by
  show chainCost chain3 (fun i => i + 1) 0 + chain3.h_func 1 2 = 100
  rw [chain3_h12]
  rfl

theorem chain3_cost2 : chainCost chain3 (fun i => i + 1) 2 = 200 := by
  show chainCost chain3 (fun i => i + 1) 1 + chain3.h_func 2 3 = 200
  rw [chain3_cost1, chain3_h23]

/-- Witness instantiating the amended C1 on the three-waypoint unit chain:
find_path from 1 to 3 returns [2, 3]. -/
theorem chain_find_path_witness : chain3.find_path 1 3 = some [2, 3] := by
  have h := chain_find_path chain3 (fun i => i + 1) 3 (by norm_num)
    (fun i j _ _ hc => Nat.add_right_cancel hc)
    ?_ ?_ ?_
  · exact h
  · intro i hi
    interval_cases i
    · exact ⟨{ id := 1, location := { x := 0, y := 0, z := 0 }, speed_modifier := 1,
               connections := [2], max_occupancy := 1, current_occupancy := 0 },
             by decide, by decide, by unfold chainConns; decide⟩
    · exact ⟨{ id := 2, location := { x := 0, y := 1, z := 0 }, speed_modifier := 1,
               connections := [3, 1], max_occupancy := 1, current_occupancy := 0 },
             by decide, by decide, by unfold chainConns; decide⟩
    · exact ⟨{ id := 3, location := { x := 0, y := 2, z := 0 }, speed_modifier := 1,
               connections := [2], max_occupancy := 1, current_occupancy := 0 },
             by decide, by decide, by unfold chainConns; decide⟩
  · show chainCost chain3 (fun i => i + 1) (3 - 1) < 4294967295
    rw [show (3 : ℕ) - 1 = 2 from rfl, chain3_cost2]
    norm_num
  · intro i hi
    have hi2 : i < 2 := by omega
    interval_cases i
    · show chainCost chain3 (fun i => i + 1) 1 + chain3.h_func 2 1 < 4294967296
      rw [chain3_cost1, chain3_h21]
      norm_num
    · show chainCost chain3 (fun i => i + 1) 2 + chain3.h_func 3 2 < 4294967296
      rw [chain3_cost2, chain3_h32]
      norm_num
